import Mathlib

/-!
Forkphorus packager.

A shallow embedding of the two packager scripts of the repository,

* `src/asset-manager-packager/packager/packer.js` (namespace `Packer`), and
* `src/packager/packager.js` (namespace `PackagerScript`),

together with theorems about them.

Asynchronous functions are embedded as functions of an explicit environment
(what the network, the project downloader, the zip library and the file reader
answer) that return the list of collaborator calls they made, in order, and the
value they resolve with or the error they reject with.  Functions that launch
several fetches at once additionally take the order in which those fetches
complete.
-/

namespace Forkphorus

/-! ## JavaScript values and errors -/

/-- A value thrown by the code or used as a promise rejection reason. -/
inductive Err where
  /-- The value `new Error(msg)`. -/
  | error (msg : String)
  /-- A `TypeError` raised by the engine itself. -/
  | typeError
  /-- A plain string passed to `reject`. -/
  | reason (msg : String)
  /-- A failure coming from a collaborator (network, JSON parser, zip library, downloader). -/
  | external (tag : String)
  deriving DecidableEq, Repr

/-- A parsed JSON value, as produced by `res.json()` or `JSON.parse`. -/
inductive Json where
  | null
  | bool (b : Bool)
  | num (n : Int)
  | str (s : String)
  | arr (xs : List Json)
  | obj (kvs : List (String × Json))

/-- The own property names of a parsed JSON value: the keys of an object, the
indices and `length` of an array.  Primitives and `null` are not objects. -/
def Json.ownKeys : Json → Option (List String)
  | .obj kvs => some (kvs.map Prod.fst)
  | .arr xs => some ((List.range xs.length).map toString ++ ["length"])
  | _ => none

/-- The JavaScript expression `k in data` for a key `k` that is not a member of
`Object.prototype` or `Array.prototype` (true of both `targets` and `objName`):
a `TypeError` when `data` is not an object, else whether `k` is an own key. -/
def jsIn (k : String) (data : Json) : Except Err Bool :=
  match data.ownKeys with
  | none => .error .typeError
  | some ks => .ok (ks.contains k)

/-- Binary data: a `Blob`, `File` body or zip entry payload. -/
structure Blob where
  bytes : List Nat
  deriving DecidableEq, Repr

/-- One entry of the file list returned by the project downloader. -/
structure FileEntry where
  path : String
  data : Blob
  deriving DecidableEq, Repr

/-- The value `SBDL.loadProject` resolves with. -/
structure SBDLResult where
  type : String
  files : List FileEntry
  deriving DecidableEq, Repr

/-- The argument JSZip passes to the update callback of `generateAsync`. -/
structure Metadata where
  percent : ℚ
  currentFile : Option String
  deriving DecidableEq, Repr

/-- What `zip.generateAsync` does for a given zip: the update callbacks it
issues, then the blob it resolves with or the error it rejects with. -/
structure ZipRun where
  updates : List Metadata
  result : Except Err Blob

/-- A user-selected file. -/
structure File where
  name : String
  blob : Blob
  deriving DecidableEq, Repr

/-- The object both packagers pass on after resolving a project. -/
structure ProjectResult where
  url : String
  type : String
  deriving DecidableEq, Repr

/-! ## String primitives of the language -/

/-- First occurrence of `pat` in a text: the text before it and the text after it. -/
def findFirst (pat : List Char) : List Char → Option (List Char × List Char)
  | [] => if pat = [] then some ([], []) else none
  | c :: cs =>
    if pat.isPrefixOf (c :: cs) then some ([], (c :: cs).drop pat.length)
    else (findFirst pat cs).map (fun p => (c :: p.1, p.2))

/-- Expansion of a replacement text of `String.prototype.replace` when the
pattern is a string (there are no capture groups): `$$` is a dollar sign, `$&`
the matched text, dollar-backtick the text before the match and
dollar-apostrophe the text after it; every other character stands for itself. -/
def getSubstitution (matched before after : List Char) : List Char → List Char
  | [] => []
  | [c] => [c]
  | c :: d :: r =>
    if c = '$' then
      if d = '$' then '$' :: getSubstitution matched before after r
      else if d = '&' then matched ++ getSubstitution matched before after r
      else if d = Char.ofNat 96 then before ++ getSubstitution matched before after r
      else if d = Char.ofNat 39 then after ++ getSubstitution matched before after r
      else c :: getSubstitution matched before after (d :: r)
    else c :: getSubstitution matched before after (d :: r)

/-- The call `s.replace(pat, rep)` with a string pattern: only the first
occurrence of `pat` is replaced. -/
def jsReplace (s pat rep : String) : String :=
  match findFirst pat.toList s.toList with
  | none => s
  | some (before, after) =>
    String.mk (before ++ getSubstitution pat.toList before after rep.toList ++ after)

/-- The call `s.split(sep)` for a one-character separator. -/
def jsSplit (sep : Char) : List Char → List (List Char)
  | [] => [[]]
  | c :: cs =>
    if c = sep then [] :: jsSplit sep cs
    else
      match jsSplit sep cs with
      | [] => [[c]]
      | h :: t => (c :: h) :: t

/-- The expression `name.split('.').pop()`. -/
def extensionOf (name : String) : String :=
  String.mk (((jsSplit '.' name.toList).getLast?).getD [])

/-! ## Logged asynchronous computations -/

/-- An asynchronous computation that has run to its end: the collaborator calls
it made, in order, and what its promise settled with. -/
structure Run (C : Type) (α : Type) where
  log : List C
  out : Except Err α

namespace Run

variable {C : Type} {α β : Type}

/-- A computation that resolves at once. -/
def pure (a : α) : Run C α := ⟨[], .ok a⟩

/-- Sequencing (`await`, or `.then`): the continuation runs only when the first
computation resolved. -/
def bind (x : Run C α) (f : α → Run C β) : Run C β :=
  match x.out with
  | .error e => ⟨x.log, .error e⟩
  | .ok a => ⟨x.log ++ (f a).log, (f a).out⟩

instance : Monad (Run C) where
  pure := Run.pure
  bind := Run.bind

/-- A `throw` (or a rejected promise). -/
def fail (e : Err) : Run C α := ⟨[], .error e⟩

/-- A call that is only recorded. -/
def emit (c : C) : Run C Unit := ⟨[c], .ok ()⟩

/-- Several recorded calls. -/
def emitAll (cs : List C) : Run C Unit := ⟨cs, .ok ()⟩

/-- A recorded call to a collaborator that answers `r`. -/
def call (c : C) (r : Except Err α) : Run C α := ⟨[c], r⟩

/-- An evaluation that makes no call and may throw. -/
def eval (r : Except Err α) : Run C α := ⟨[], r⟩

end Run

/-- The response of the project metadata endpoint: its status code and what
`res.json()` settles with. -/
structure Response where
  status : Nat
  body : Except Err Json

/-- The order in which launched requests complete, read off a list: the
launched requests that occur in it, each one once.  A launched request that
does not occur in the list never completes. -/
def completions {ρ : Type} [DecidableEq ρ] (launched order : List ρ) : List ρ :=
  (order.filter (fun r => r ∈ launched)).dedup

/-- The state of a promise once nothing more can happen. -/
inductive Settled (α : Type) where
  | resolved (a : α)
  | rejected (e : Err)
  | pending
  deriving DecidableEq, Repr

/-- The first failing outcome of a list of completions, with the completions
that came before it. -/
def firstFailure {ρ : Type} (outcome : ρ → Except Err Unit) : List ρ → Option (List ρ × Err)
  | [] => none
  | r :: rs =>
    match outcome r with
    | .error e => some ([], e)
    | .ok _ => (firstFailure outcome rs).map (fun p => (r :: p.1, p.2))

/-! ## `packer.js` -/

namespace Packer

/-- The collaborator calls made by `packer.js`. -/
inductive Call where
  /-- The call `fetch(url)`. -/
  | fetch (url : String)
  /-- The call `res.json()`. -/
  | json
  /-- The call `this.progress.start()` of the file loader. -/
  | progressStart
  /-- The call `SBDL.loadProject(id, type)`. -/
  | loadProject (id type : String)
  /-- Entry into `_createArchive(files)`. -/
  | createArchive (files : List FileEntry)
  /-- The call `this.archiveProgress.start()`. -/
  | archiveProgressStart
  /-- The call `zip.file(path, data)`. -/
  | zipFile (path : String) (data : Blob)
  /-- The call `zip.generateAsync(...)`. -/
  | generateAsync
  /-- The call `this.archiveProgress.setProgress(p)`. -/
  | archiveSetProgress (p : ℚ)
  /-- The call `this.archiveProgress.setCaption(text)`. -/
  | archiveSetCaption (text : Option String)
  /-- The call `readAsURL(blob)`. -/
  | readAsURL (blob : Blob)
  /-- The call `fileReader.readAsDataURL(file)` of `loadProjectFromFile`. -/
  | readAsDataURL (file : File)
  deriving DecidableEq, Repr

/-- What the outside world answers to the project-loading half of `packer.js`. -/
structure Env where
  /-- The response `fetch(url)` resolves with, or its rejection. -/
  fetch : String → Except Err Response
  /-- The result of `SBDL.loadProject(id, type)`. -/
  loadProject : String → String → Except Err SBDLResult
  /-- The behaviour of `generateAsync` on a zip filled with the given entries. -/
  generateAsync : List FileEntry → ZipRun
  /-- The result of `FileReader.readAsDataURL`, `none` when `onerror` fires. -/
  readAsDataURL : Blob → Option String

/-- The function `readAsURL(blob)`. -/
def readAsURL (env : Env) (blob : Blob) : Run Call String :=
  Run.call (.readAsURL blob)
    (match env.readAsDataURL blob with
     | some url => .ok url
     | none => .error (.reason "Error reading file"))

/-! ### `class FileLoader` -/

/-- A script or stylesheet of the manifest (`PackagerFile`). -/
structure PackagerFile where
  type : String
  src : String
  loaded : Bool
  content : Option String
  deriving DecidableEq, Repr

/-- A runtime asset of the manifest (`PackagerAsset`). -/
structure PackagerAsset where
  src : String
  loaded : Bool
  data : Option String
  deriving DecidableEq, Repr

/-- The mutable fields of a `FileLoader`.  Entries are distinct objects, known
by their position in the array. -/
structure FileLoader where
  files : List PackagerFile
  assets : List PackagerAsset
  deriving DecidableEq, Repr

/-- What the network answers to the requests of one `loadMissingAssets` call:
`text i` is what `fetch` followed by `r.text()` settles with for the file at
position `i` of `files`, `url i` what `fetch`, `r.blob()` and `readAsURL`
settle with for the asset at position `i` of `assets`. -/
structure Net where
  text : Nat → Except Err String
  url : Nat → Except Err String

/-- A request launched by `loadMissingAssets`, named by the position of its
resource. -/
inductive Req where
  | file (i : Nat)
  | asset (i : Nat)
  deriving DecidableEq, Repr

namespace FileLoader

/-- The state change made by the last callback of `_loadFile(file)`, for the
file at position `i`, when its request succeeded. -/
def _loadFile (net : Net) (i : Nat) (s : FileLoader) : FileLoader :=
  match s.files[i]?, net.text i with
  | some file, .ok t =>
    let loadedFile : PackagerFile :=
      { file with loaded := true, content := some ("/* F: " ++ file.src ++ " */" ++ t) }
    { s with files := s.files.set i loadedFile }
  | _, _ => s

/-- The state change made by the last callback of `_loadAsset(asset)`, for the
asset at position `i`, when its request succeeded. -/
def _loadAsset (net : Net) (i : Nat) (s : FileLoader) : FileLoader :=
  match s.assets[i]?, net.url i with
  | some asset, .ok url =>
    let loadedAsset : PackagerAsset := { asset with loaded := true, data := some url }
    { s with assets := s.assets.set i loadedAsset }
  | _, _ => s

/-- The file object as the callback of `_loadFile` leaves it, for the answer the
network gives to the request of position `i`; unchanged when that request
fails. -/
def loadedFile (net : Net) (i : Nat) (file : PackagerFile) : PackagerFile :=
  match net.text i with
  | .ok t => { file with loaded := true, content := some ("/* F: " ++ file.src ++ " */" ++ t) }
  | .error _ => file

/-- The asset object as the callback of `_loadAsset` leaves it; unchanged when
its request fails. -/
def loadedAsset (net : Net) (i : Nat) (asset : PackagerAsset) : PackagerAsset :=
  match net.url i with
  | .ok url => { asset with loaded := true, data := some url }
  | .error _ => asset

/-- The method `_concatenateFiles(files)`; `join` prints a missing content as
the empty string. -/
def _concatenateFiles (files : List PackagerFile) : String :=
  "\n".intercalate (files.map (fun i => i.content.getD ""))

/-- Positions of `this.files.filter((i) => !i.loaded)`. -/
def missingFiles (s : FileLoader) : List Nat :=
  (List.range s.files.length).filter
    (fun i => match s.files[i]? with
      | some f => !f.loaded
      | none => false)

/-- Positions of `this.assets.filter((i) => !i.loaded)`. -/
def missingAssets (s : FileLoader) : List Nat :=
  (List.range s.assets.length).filter
    (fun i => match s.assets[i]? with
      | some a => !a.loaded
      | none => false)

/-- The requests of the `Promise.all` argument, in launch order. -/
def launched (s : FileLoader) : List Req :=
  (missingFiles s).map Req.file ++ (missingAssets s).map Req.asset

/-- The URL a request fetches. -/
def urlOf (s : FileLoader) : Req → String
  | .file i => "../" ++ ((s.files[i]?).map (fun f => f.src)).getD ""
  | .asset i => "../" ++ ((s.assets[i]?).map (fun a => a.src)).getD ""

/-- Whether the promise of a request resolves or rejects. -/
def outcome (net : Net) : Req → Except Err Unit
  | .file i => (net.text i).map (fun _ => ())
  | .asset i => (net.url i).map (fun _ => ())

/-- The state change at the completion of one request. -/
def settle (net : Net) (s : FileLoader) : Req → FileLoader
  | .file i => _loadFile net i s
  | .asset i => _loadAsset net i s

/-- The state after the given completions, in order. -/
def settleAll (net : Net) (s : FileLoader) (done : List Req) : FileLoader :=
  done.foldl (settle net) s

/-- The value `loadMissingAssets` returns. -/
structure LoadResult where
  scripts : String
  styles : String
  assets : List PackagerAsset
  deriving DecidableEq, Repr

/-- The object built by the `return` statement of `loadMissingAssets`. -/
def result (s : FileLoader) : LoadResult :=
  { scripts := _concatenateFiles (s.files.filter (fun i => i.type = "script"))
    styles := _concatenateFiles (s.files.filter (fun i => i.type = "style"))
    assets := s.assets }

/-- Every loaded file carries a content of the form the callback of `_loadFile`
writes: the provenance comment of its source, then some text.  True of a
manifest in which nothing is loaded yet. -/
def Tagged (s : FileLoader) : Prop :=
  ∀ (i : Nat) (f : PackagerFile), s.files[i]? = some f → f.loaded = true →
    ∃ t, f.content = some ("/* F: " ++ f.src ++ " */" ++ t)

/-- One call of `loadMissingAssets`, seen from outside. -/
structure LoadRun where
  /-- The calls made before the first `await`: `progress.start()` and the fetches. -/
  log : List Call
  /-- What the returned promise settles with. -/
  out : Settled LoadResult
  /-- The loader at the moment the returned promise settles. -/
  atSettle : FileLoader
  /-- The loader once every request that completes has completed. -/
  atEnd : FileLoader

/-- The method `loadMissingAssets()`, for a network `net` and an order `order`
in which the launched requests complete.  `Promise.all` rejects at the first
rejection; the other requests still run to their end. -/
def loadMissingAssets (net : Net) (order : List Req) (s : FileLoader) : LoadRun :=
  if (missingFiles s).length > 0 ∨ (missingAssets s).length > 0 then
    let done := completions (launched s) order
    let log := Call.progressStart :: (launched s).map (fun r => Call.fetch (urlOf s r))
    match firstFailure (outcome net) done with
    | some (before, e) =>
      { log := log, out := .rejected e
        atSettle := settleAll net s before, atEnd := settleAll net s done }
    | none =>
      if (launched s).all (fun r => r ∈ done) then
        { log := log, out := .resolved (result (settleAll net s done))
          atSettle := settleAll net s done, atEnd := settleAll net s done }
      else
        { log := log, out := .pending
          atSettle := settleAll net s done, atEnd := settleAll net s done }
  else
    { log := [], out := .resolved (result s), atSettle := s, atEnd := s }

end FileLoader

/-! ### `class Packager` -/

/-- The project fields of a `Packager`; `none` is `null`. -/
structure Packager where
  projectType : Option String
  projectData : Option String
  deriving DecidableEq, Repr

namespace Packager

/-- The method `_createArchive(files)`. -/
def _createArchive (env : Env) (files : List FileEntry) : Run Call Blob := do
  Run.emit (.createArchive files)
  Run.emit .archiveProgressStart
  Run.emitAll (files.map (fun file => Call.zipFile file.path file.data))
  Run.emit .generateAsync
  Run.emitAll ((env.generateAsync files).updates.flatMap
    (fun metadata => [Call.archiveSetProgress metadata.percent,
                      Call.archiveSetCaption metadata.currentFile]))
  Run.eval (env.generateAsync files).result

/-- The method `_getProjectTypeById(id)`. -/
def _getProjectTypeById (env : Env) (id : String) : Run Call String := do
  let res ← Run.call (.fetch ("https://projects.scratch.mit.edu/" ++ id))
    (env.fetch ("https://projects.scratch.mit.edu/" ++ id))
  if res.status ≠ 200 then
    if res.status = 404 then
      Run.fail (.error "Project does not exist")
    else
      Run.fail (.error ("Cannot get project, got error code: " ++ toString res.status))
  else do
    let data ← Run.call .json res.body
    let hasTargets ← Run.eval (jsIn "targets" data)
    if hasTargets then pure "sb3"
    else do
      let hasObjName ← Run.eval (jsIn "objName" data)
      if hasObjName then pure "sb2"
      else Run.fail (.error "unknown project type")

/-- The method `_getProjectById(id)`. -/
def _getProjectById (env : Env) (id : String) : Run Call ProjectResult := do
  let type ← _getProjectTypeById env id
  let result ← Run.call (.loadProject id type) (env.loadProject id type)
  if result.type ≠ "zip" then
    Run.fail (.error ("unknown result type: " ++ result.type))
  else do
    let archive ← _createArchive env result.files
    let url ← readAsURL env archive
    pure { url := url, type := type }

/-- The method `loadProjectById(id)`: the packager it leaves behind when it resolves. -/
def loadProjectById (env : Env) (id : String) (_p : Packager) : Run Call Packager := do
  let r ← _getProjectById env id
  pure { projectData := some r.url, projectType := some r.type }

/-- The method `loadProjectFromFile(file)`, `none` being a missing file: the
packager it leaves behind when it resolves. -/
def loadProjectFromFile (env : Env) (file : Option File) (_p : Packager) : Run Call Packager :=
  match file with
  | none => Run.fail (.error "Missing file")
  | some file =>
    let extension := extensionOf file.name
    Run.call (.readAsDataURL file)
      (match env.readAsDataURL file.blob with
       | some url => .ok { projectData := some url, projectType := some extension }
       | none => .error (.reason "cannot read file"))

end Packager

end Packer

/-! ## `packager.js` -/

/-- A JavaScript number as far as progress values need it: a fraction
(rounding aside), an infinity, or not a number. -/
inductive JsNum where
  | fin (q : ℚ)
  | posInf
  | negInf
  | nan
  deriving DecidableEq, Repr

/-- The quotient `a / b` of two non-negative integers (rounding aside). -/
def jsDiv (a b : Nat) : JsNum :=
  if b = 0 then (if a = 0 then .nan else .posInf) else .fin ((a : ℚ) / (b : ℚ))

/-- The quotient `a / b` of two numbers (rounding and the sign of zero aside). -/
def jsQuot : JsNum → JsNum → JsNum
  | .nan, _ => .nan
  | _, .nan => .nan
  | .fin a, .fin b =>
    if b = 0 then (if a = 0 then .nan else if 0 < a then .posInf else .negInf)
    else .fin (a / b)
  | .fin _, .posInf => .fin 0
  | .fin _, .negInf => .fin 0
  | .posInf, .fin b => if 0 ≤ b then .posInf else .negInf
  | .negInf, .fin b => if 0 ≤ b then .negInf else .posInf
  | .posInf, .posInf => .nan
  | .posInf, .negInf => .nan
  | .negInf, .posInf => .nan
  | .negInf, .negInf => .nan

/-- The value a variable holds after `x++`. -/
def jsSucc : JsNum → JsNum
  | .fin q => .fin (q + 1)
  | x => x

/-- The `progress` event of a `FileReader`. -/
structure ProgressEvent where
  lengthComputable : Bool
  loaded : Nat
  total : Nat
  deriving DecidableEq, Repr

/-- What a `FileReader` does when asked to read a blob: the progress events it
fires, then `onload` with a result, or `onerror` (`none`). -/
structure Reading where
  events : List ProgressEvent
  result : Option String

/-- An opened zip archive: for an entry name, `none` when `zip.file(name)` is
`null`, else what `.async('string')` settles with. -/
structure Zip where
  file : String → Option (Except Err String)

namespace PackagerScript

/-- The collaborator calls made by `packager.js`. -/
inductive Call where
  /-- The call `createProgressBar(text)`, which also makes the new bar current. -/
  | createProgressBar (text : String)
  /-- The statement `currentProgressBar.total++` of the fetch wrapper. -/
  | totalIncr
  /-- The statement `currentProgressBar.finished++` of the fetch wrapper. -/
  | finishedIncr
  /-- The call `nativeFetch(url, options)`. -/
  | nativeFetch (url : String)
  /-- The call `r.json()`. -/
  | json
  /-- The call `finish()` on the current progress bar. -/
  | finish
  /-- The call `percent(p)` on the current progress bar. -/
  | percent (p : JsNum)
  /-- The call `SBDL.loadProject(id, type)`. -/
  | loadProject (id type : String)
  /-- Entry into `createArchive(files)`. -/
  | createArchive (files : List FileEntry)
  /-- The call `zip.file(path, data)`. -/
  | zipFile (path : String) (data : Blob)
  /-- The call `zip.generateAsync(...)`. -/
  | generateAsync
  /-- Entry into `readBlob(blob, progressCallback)`. -/
  | readBlob (blob : Blob)
  /-- The call `JSZip.loadAsync(file)`. -/
  | loadAsync (file : File)
  /-- The call `zip.file(name)`. -/
  | zipEntry (name : String)
  /-- The call `JSON.parse(text)`. -/
  | parse (text : String)
  deriving DecidableEq, Repr

/-- What the outside world answers to the project-loading half of `packager.js`. -/
structure Env where
  /-- The response `nativeFetch(url)` resolves with, or its rejection. -/
  fetch : String → Except Err Response
  /-- The result of `SBDL.loadProject(id, type)`. -/
  loadProject : String → String → Except Err SBDLResult
  /-- The behaviour of `generateAsync` on a zip filled with the given entries. -/
  generateAsync : List FileEntry → ZipRun
  /-- The behaviour of a `FileReader` on a blob. -/
  read : Blob → Reading
  /-- The result of `JSZip.loadAsync(file)`. -/
  loadAsync : File → Except Err Zip
  /-- The result of `JSON.parse(text)`. -/
  parse : String → Except Err Json

/-- The constant `PROJECT_API`. -/
def PROJECT_API : String := "https://projects.scratch.mit.edu/$id"

/-- The replacement `window.fetch`, up to the response. -/
def fetch (env : Env) (url : String) : Run Call Response := do
  Run.emit .totalIncr
  let res ← Run.call (.nativeFetch url) (env.fetch url)
  Run.emit .finishedIncr
  pure res

/-- The values `readBlob` passes to its progress callback for one progress event. -/
def onprogress (e : ProgressEvent) : List JsNum :=
  if !e.lengthComputable then []
  else
    let progress := jsDiv e.loaded e.total
    if progress = .nan then [.fin 0] else [progress]

/-- The function `readBlob(blob, progressCallback)`; the callback is given by
the calls it makes for a progress value, `none` when it is left out. -/
def readBlob (env : Env) (blob : Blob) (progressCallback : Option (JsNum → List Call)) :
    Run Call String := do
  Run.emit (.readBlob blob)
  match progressCallback with
  | some callback =>
    Run.emitAll (((env.read blob).events.flatMap onprogress).flatMap callback)
    match (env.read blob).result with
    | some url => do
      Run.emitAll (callback (.fin 1))
      pure url
    | none => Run.fail (.reason "Error reading file")
  | none =>
    match (env.read blob).result with
    | some url => pure url
    | none => Run.fail (.reason "Error reading file")

/-- The function `getProjectTypeById(id)`. -/
def getProjectTypeById (env : Env) (id : String) : Run Call String := do
  Run.emit (.createProgressBar "Determining project type")
  let r ← fetch env (jsReplace PROJECT_API "$id" id)
  let data ← Run.call .json r.body
  Run.emit .finish
  let hasTargets ← Run.eval (jsIn "targets" data)
  if hasTargets then pure "sb3"
  else do
    let hasObjName ← Run.eval (jsIn "objName" data)
    if hasObjName then pure "sb2"
    else Run.fail (.error "unknown project type")

/-- The function `createArchive(files)`. -/
def createArchive (env : Env) (files : List FileEntry) : Run Call Blob := do
  Run.emit (.createArchive files)
  Run.emit (.createProgressBar "Creating archive")
  Run.emitAll (files.map (fun file => Call.zipFile file.path file.data))
  Run.emit .generateAsync
  Run.emitAll ((env.generateAsync files).updates.map
    (fun metadata => Call.percent (.fin metadata.percent)))
  Run.eval (env.generateAsync files).result

/-- The function `getProjectById(id)`. -/
def getProjectById (env : Env) (id : String) : Run Call ProjectResult := do
  let type ← getProjectTypeById env id
  Run.emit (.createProgressBar "Loading project")
  let result ← Run.call (.loadProject id type) (env.loadProject id type)
  if result.type ≠ "zip" then
    Run.fail (.error ("unknown result type: " ++ result.type))
  else do
    let blob ← createArchive env result.files
    Run.emit (.createProgressBar "Reading archive")
    let url ← readBlob env blob (some (fun progress => [Call.percent progress]))
    pure { url := url, type := type }

/-- The function `getProjectByFile(file)`. -/
def getProjectByFile (env : Env) (file : File) : Run Call ProjectResult := do
  Run.emit (.createProgressBar "Determining project type")
  let zip ← Run.call (.loadAsync file) (env.loadAsync file)
  let text ← Run.call (.zipEntry "project.json")
    (match zip.file "project.json" with
     | none => .error .typeError
     | some r => r)
  let json ← Run.call (.parse text) (env.parse text)
  let hasObjName ← Run.eval (jsIn "objName" json)
  let type ←
    if hasObjName then pure "sb2"
    else do
      let hasTargets ← Run.eval (jsIn "targets" json)
      if hasTargets then pure "sb3"
      else Run.fail (.error "unknown project type (invalid project?)")
  Run.emit .finish
  Run.emit (.createProgressBar "Reading project")
  let url ← readBlob env file.blob (some (fun progress => [Call.percent progress]))
  pure { url := url, type := type }

/-- The function `inlineURLs(source, urls)`: `fetched k` is what fetching,
reading and encoding the path at position `k` of `urls` settles with, and
`order` the order in which those requests complete.  Each completion replaces
in the text as it stands at that moment. -/
def inlineURLs (fetched : Nat → Except Err String) (order : List Nat)
    (source : String) (urls : List String) : Settled String :=
  let done := completions (List.range urls.length) order
  match firstFailure (fun k => (fetched k).map (fun _ => ())) done with
  | some (_, e) => .rejected e
  | none =>
    if (List.range urls.length).all (fun k => k ∈ done) then
      .resolved (done.foldl
        (fun src k =>
          match urls[k]?, fetched k with
          | some i, .ok url => jsReplace src i url
          | _, _ => src)
        source)
    else .pending

end PackagerScript

namespace PackagerScript

/-! ### Progress bars -/

/-- The object `createProgressBar` returns: the variables `finished` and
`total` of its closure, and the number last assigned to `progressEl.value`,
the displayed ratio. -/
structure ProgressBar where
  finished : JsNum
  total : JsNum
  value : JsNum
  deriving DecidableEq, Repr

/-- The closure `updateProgress`. -/
def updateProgress (b : ProgressBar) : ProgressBar :=
  if b.total = .fin 0 then { b with value := .fin 0 }
  else { b with value := jsQuot b.finished b.total }

/-- The function `createProgressBar(text)`, as far as the returned bar goes:
`progressEl.value = 0`, `finished = 0`, `total = 0`. -/
def createProgressBar (_text : String) : ProgressBar :=
  { finished := .fin 0, total := .fin 0, value := .fin 0 }

namespace ProgressBar

/-- The setter `set total(_total)`. -/
def setTotal (b : ProgressBar) (_total : JsNum) : ProgressBar :=
  updateProgress { b with total := _total }

/-- The setter `set finished(_finished)`. -/
def setFinished (b : ProgressBar) (_finished : JsNum) : ProgressBar :=
  updateProgress { b with finished := _finished }

/-- The method `finish()`. -/
def finish (b : ProgressBar) : ProgressBar :=
  updateProgress { b with finished := .fin 1, total := .fin 1 }

/-- The method `percent(percent)`. -/
def percent (b : ProgressBar) (percent : JsNum) : ProgressBar :=
  updateProgress { b with total := .fin 1, finished := percent }

end ProgressBar

/-- A mutation of a progress bar. -/
inductive BarOp where
  | setTotal (x : JsNum)
  | setFinished (x : JsNum)
  | finish
  | percent (p : JsNum)
  deriving DecidableEq, Repr

/-- The bar after one mutation. -/
def ProgressBar.step (b : ProgressBar) : BarOp → ProgressBar
  | .setTotal x => b.setTotal x
  | .setFinished x => b.setFinished x
  | .finish => b.finish
  | .percent p => b.percent p

/-- The effect of one logged call on the bar the variable `currentProgressBar`
points to (`none` is `null`).  In the functions embedded here every `finish`
and `percent` call is made on the bar created last, which is the current one. -/
def stepCurrent (bar : Option ProgressBar) : Call → Option ProgressBar
  | .createProgressBar text => some (createProgressBar text)
  | .totalIncr => bar.map (fun b => b.setTotal (jsSucc b.total))
  | .finishedIncr => bar.map (fun b => b.setFinished (jsSucc b.finished))
  | .finish => bar.map (fun b => b.finish)
  | .percent p => bar.map (fun b => b.percent p)
  | _ => bar

/-- The variable `currentProgressBar` after the calls of a log, from `null`. -/
def currentProgressBar (log : List Call) : Option ProgressBar :=
  log.foldl stepCurrent none


/-! ### The generated page -/

/-- Lines 354 to 360 of `packager.js`, a stretch of the template literal of `getProjectHTML`
without interpolation. -/
def htmlPart0 : String :=
  String.join
    [ "<!DOCTYPE html>\n",
      "  <html>\n",
      "\n",
      "  <!\x2d\x2d https://forkphorus.github.io/ \x2d\x2d>\n",
      "\n",
      "  <head>\n",
      "    <style>\n" ]

/-- Lines 362 to 413 of `packager.js`, a stretch of the template literal of `getProjectHTML`
without interpolation. -/
def htmlPart1 : String :=
  String.join
    [ "    </style>\n",
      "    <style>\n",
      "      body, html \x7b\n",
      "        margin: 0;\n",
      "        padding: 0;\n",
      "        overflow: hidden;\n",
      "        background: \x23000;\n",
      "      \x7d\n",
      "      \x23root, \x23splash, \x23error \x7b\n",
      "        position: absolute;\n",
      "        top: 0;\n",
      "        left: 0;\n",
      "        width: 100%;\n",
      "        height: 100%;\n",
      "      \x7d\n",
      "      \x23splash, \x23error \x7b\n",
      "        background: \x23000;\n",
      "        display: table;\n",
      "        color: \x23fff;\n",
      "        cursor: default;\n",
      "      \x7d\n",
      "      \x23error \x7b\n",
      "        display: none;\n",
      "      \x7d\n",
      "      \x23splash > div,\n",
      "      \x23error > div \x7b\n",
      "        display: table-cell;\n",
      "        height: 100%;\n",
      "        text-align: center;\n",
      "        vertical-align: middle;\n",
      "      \x7d\n",
      "\n",
      "      \x23progress \x7b\n",
      "        width: 80%;\n",
      "        height: 16px;\n",
      "        border: 1px solid \x23fff;\n",
      "        margin: 0 auto;\n",
      "      \x7d\n",
      "      \x23progress-bar \x7b\n",
      "        background: \x23fff;\n",
      "        width: 10%;\n",
      "        height: 100%;\n",
      "      \x7d\n",
      "      h1 \x7b\n",
      "        font: 300 52px sans-serif;\n",
      "        margin: 0 0 16px;\n",
      "      \x7d\n",
      "      p \x7b\n",
      "        font: 300 24px/1.5 sans-serif;\n",
      "        margin: 0;\n",
      "        color: rgba(255, 255, 255, .6);\n",
      "      \x7d\n" ]

/-- Lines 415 to 421 of `packager.js`, a stretch of the template literal of `getProjectHTML`
without interpolation. -/
def htmlPart2 : String :=
  String.join
    [ "    </style>\n",
      "  </head>\n",
      "\n",
      "  <body>\n",
      "    <div id=\"root\"></div>\n",
      "    <div id=\"splash\">\n",
      "      <div>\n" ]

/-- Lines 423 to 434 of `packager.js`, a stretch of the template literal of `getProjectHTML`
without interpolation. -/
def htmlPart3 : String :=
  String.join
    [ "        <div id=\"progress\"><div id=\"progress-bar\"></div></div>\n",
      "      </div>\n",
      "    </div>\n",
      "    <div id=\"error\">\n",
      "      <div>\n",
      "        <h1>Internal Error</h1>\n",
      "        <p>An error has occurred. <a id=\"error-bug-link\" href=\"https://github.com/forkphorus/forkphorus/issues/new\" target=\"_blank\">Click here</a> to file a bug report.</p>\n",
      "      </div>\n",
      "    </div>\n",
      "\n",
      "    <!\x2d\x2d forkphrous, and it\x27s dependencies \x2d\x2d>\n",
      "    <script>\n" ]

/-- Lines 436 to 461 of `packager.js`, a stretch of the template literal of `getProjectHTML`
without interpolation. -/
def htmlPart4 : String :=
  String.join
    [ "    </script>\n",
      "\n",
      "    <!\x2d\x2d special hooks for NW.js \x2d\x2d>\n",
      "    <script>\n",
      "    (function() \x7b\n",
      "      if (typeof nw !== \x27undefined\x27) \x7b\n",
      "        // open links in the browser\n",
      "        var win = nw.Window.get();\n",
      "        win.on(\x27new-win-policy\x27, (frame, url, policy) => \x7b\n",
      "          policy.ignore();\n",
      "          nw.Shell.openExternal(url);\n",
      "        \x7d);\n",
      "        // fix the size of the window made by NW.js\n",
      "        var package = nw.require(\x27package.json\x27);\n",
      "        if (package.window && package.window.height && package.window.width) \x7b\n",
      "          win.resizeBy(package.window.width - window.innerWidth, package.window.height - window.innerHeight);\n",
      "        \x7d\n",
      "      \x7d\n",
      "    \x7d)();\n",
      "    </script>\n",
      "\n",
      "    <!\x2d\x2d project data & player \x2d\x2d>\n",
      "    <script>\n",
      "    (function() \x7b\n",
      "\n",
      "      // \x2d\x2d\x2d\n" ]

/-- Lines 464 to 523 of `packager.js`, a stretch of the template literal of `getProjectHTML`
without interpolation. -/
def htmlPart5 : String :=
  String.join
    [ "      // \x2d\x2d\x2d\n",
      "\n",
      "      var root = document.getElementById(\x27root\x27);\n",
      "      var progressBar = document.getElementById(\x27progress-bar\x27);\n",
      "      var splash = document.getElementById(\x27splash\x27);\n",
      "      var error = document.getElementById(\x27error\x27);\n",
      "      var bugLink = document.getElementById(\x27error-bug-link\x27);\n",
      "\n",
      "      var stage;\n",
      "\n",
      "      var totalTasks = 0;\n",
      "      var completedTasks = 0;\n",
      "      P.IO.progressHooks.new = function() \x7b\n",
      "        totalTasks++;\n",
      "        progressBar.style.width = (10 + completedTasks / totalTasks * 90) + \x27%\x27;\n",
      "      \x7d;\n",
      "      P.IO.progressHooks.end = function() \x7b\n",
      "        completedTasks++;\n",
      "        progressBar.style.width = (10 + completedTasks / totalTasks * 90) + \x27%\x27;\n",
      "      \x7d;\n",
      "\n",
      "      function showError(e) \x7b\n",
      "        error.style.display = \x27table\x27;\n",
      "        bugLink.href = createBugLink(\x27Describe what you were doing to cause this error:\x27, \x27\x60\x60\x60\\n\x27 + P.utils.stringifyError(e) + \x27\\n\x60\x60\x60\x27);\n",
      "        console.error(e.stack);\n",
      "      \x7d\n",
      "\n",
      "      function createBugLink(before, after) \x7b\n",
      "        var title = \x27Error in packaged project \x27 + document.title;\n",
      "        var baseBody = \x27\\n\\n\\n\x2d\x2d\x2d\x2d\\nPackaged project: \x27 + document.title + \x27\\n\x27 + navigator.userAgent + \x27\\n\x27;\n",
      "        return \x27https://github.com/forkphorus/forkphorus/issues/new?title=\x27 + encodeURIComponent(title) + \x27&body=\x27 + encodeURIComponent(before + baseBody + after) + \x27&labels=bug\x27;\n",
      "      \x7d\n",
      "\n",
      "      function updateLayout() \x7b\n",
      "        if (!stage) return;\n",
      "        var w = Math.min(window.innerWidth, window.innerHeight / .75);\n",
      "        var h = w * .75;\n",
      "        root.style.left = (window.innerWidth - w) / 2 + \x27px\x27;\n",
      "        root.style.top = (window.innerHeight - h) / 2 + \x27px\x27;\n",
      "        stage.setZoom(w / 480);\n",
      "        stage.draw();\n",
      "      \x7d\n",
      "\n",
      "      window.addEventListener(\x27resize\x27, updateLayout);\n",
      "\n",
      "      fetch(project)\n",
      "        .then((request) => request.arrayBuffer())\n",
      "        .then((buffer) => \x7b\n",
      "          if (type === \x27sb3\x27) \x7b\n",
      "            var loader = new P.sb3.SB3FileLoader(buffer);\n",
      "            return loader.load();\n",
      "          \x7d else if (type === \x27sb2\x27) \x7b\n",
      "            return P.sb2.loadSB2Project(buffer);\n",
      "          \x7d else \x7b\n",
      "            throw new Error(\x27Invalid project type: \x27 + type);\n",
      "          \x7d\n",
      "        \x7d)\n",
      "        .then((s) => \x7b\n",
      "          stage = s;\n",
      "          // post-load script\n" ]

/-- Lines 525 to 538 of `packager.js`, a stretch of the template literal of `getProjectHTML`
without interpolation. -/
def htmlPart6 : String :=
  String.join
    [ "          // end script\n",
      "          splash.style.display = \x27none\x27;\n",
      "          root.appendChild(stage.root);\n",
      "          updateLayout();\n",
      "          stage.runtime.handleError = showError;\n",
      "          stage.runtime.start();\n",
      "          stage.runtime.triggerGreenFlag();\n",
      "          stage.focus();\n",
      "        \x7d)\n",
      "        .catch((err) => showError(err));\n",
      "    \x7d());\n",
      "    </script>\n",
      "  </body>\n",
      "\n" ]

/-- The variable `fileCache`. -/
structure FileCache where
  css : String
  js : String
  deriving DecidableEq, Repr

/-- The object `getOptions()` returns (`Options`). -/
structure Options where
  loadingText : String
  postLoadScript : String
  customStyle : String
  deriving DecidableEq, Repr

/-- The function `getProjectHTML(result)`, with the two values it reads from
outside made arguments: the variable `fileCache` and the object returned by
`getOptions()`.  An interpolated string is inserted as it is; an empty
`loadingText` is falsy. -/
def getProjectHTML (result : ProjectResult) (fileCache : FileCache) (options : Options) :
    String :=
  htmlPart0 ++ "      " ++ fileCache.css ++ "\n" ++ htmlPart1 ++ "      " ++
    options.customStyle ++ "\n" ++ htmlPart2 ++ "        " ++
    (if options.loadingText ≠ "" then "<h1>" ++ options.loadingText ++ "</h1>" else "") ++
    "\n" ++ htmlPart3 ++ "      " ++ fileCache.js ++ "\n" ++ htmlPart4 ++
    "      var type = \x27" ++ result.type ++ "\x27;\n" ++ "      var project = \x27" ++
    result.url ++ "\x27;\n" ++ htmlPart5 ++ "          " ++ options.postLoadScript ++ "\n" ++
    htmlPart6 ++ "  </html>"

end PackagerScript

namespace Packer

/-! ### The generated page -/

/-- Lines 238 to 244 of `packer.js`, a stretch of the template literal of `run`
without interpolation. -/
def bodyPart0 : String :=
  String.join
    [ "<!DOCTYPE html>\n",
      "<!\x2d\x2d Generated by the forkphorus packager: https://forkphorus.github.io/packager/ \x2d\x2d>\n",
      "<html>\n",
      "  <head>\n",
      "    <meta http-equiv=\"Content-Security-Policy\" content=\"default-src \x27unsafe-inline\x27 \x27unsafe-eval\x27 data: blob:\">\n",
      "    <style>\n",
      "/* Forkphorus styles... */\n" ]

/-- Lines 246 to 320 of `packer.js`, a stretch of the template literal of `run`
without interpolation. -/
def bodyPart1 : String :=
  String.join
    [ "/* Player styles... */\n",
      "body \x7b\n",
      "  background: \x23000;\n",
      "  margin: 0;\n",
      "  overflow: hidden;\n",
      "\x7d\n",
      ".player \x7b\n",
      "  position: absolute;\n",
      "\x7d\n",
      ".splash, .error \x7b\n",
      "  position: absolute;\n",
      "  top: 0;\n",
      "  left: 0;\n",
      "  width: 100%;\n",
      "  height: 100%;\n",
      "  background: \x23000;\n",
      "  display: table;\n",
      "  color: \x23fff;\n",
      "  cursor: default;\n",
      "\x7d\n",
      ".error \x7b\n",
      "  display: none;\n",
      "\x7d\n",
      ".splash > div,\n",
      ".error > div \x7b\n",
      "  display: table-cell;\n",
      "  height: 100%;\n",
      "  text-align: center;\n",
      "  vertical-align: middle;\n",
      "\x7d\n",
      ".progress \x7b\n",
      "  width: 80%;\n",
      "  height: 16px;\n",
      "  border: 1px solid \x23fff;\n",
      "  margin: 0 auto;\n",
      "\x7d\n",
      ".progress-bar \x7b\n",
      "  background: \x23fff;\n",
      "  width: 10%;\n",
      "  height: 100%;\n",
      "\x7d\n",
      "h1 \x7b\n",
      "  font: 300 72px Helvetica Neue, Helvetica, Arial, sans-serif;\n",
      "  margin: 0 0 16px;\n",
      "\x7d\n",
      "p \x7b\n",
      "  font: 300 24px/1.5 Helvetica Neue, Helvetica, Arial, sans-serif;\n",
      "  margin: 0;\n",
      "  color: rgba(255, 255, 255, .6);\n",
      "\x7d\n",
      ".error a \x7b\n",
      "  color: \x23fff;\n",
      "\x7d\n",
      "    </style>\n",
      "  </head>\n",
      "  <body>\n",
      "\n",
      "    <div class=\"player\"></div>\n",
      "    <div class=\"splash\">\n",
      "      <div>\n",
      "        <h1>forkphorus</h1>\n",
      "        <div class=\"progress\">\n",
      "          <div class=\"progress-bar\"></div>\n",
      "        </div>\n",
      "      </div>\n",
      "    </div>\n",
      "    <div class=\"error\">\n",
      "      <div>\n",
      "        <h1>Internal Error</h1>\n",
      "        <p class=\"error-report\"></p>\n",
      "      </div>\n",
      "    </div>\n",
      "\n",
      "    <script>\n",
      "// Forkphorus scripts...\n" ]

/-- Lines 322 to 356 of `packer.js`, a stretch of the template literal of `run`
without interpolation. -/
def bodyPart2 : String :=
  String.join
    [ "// Player scripts...\n",
      "(function () \x7b\n",
      "  \x27use strict\x27;\n",
      "\n",
      "  var splash = document.querySelector(\x27.splash\x27);\n",
      "  var error = document.querySelector(\x27.error\x27);\n",
      "  var progressBar = document.querySelector(\x27.progress\x27);\n",
      "  var progressBarFill = document.querySelector(\x27.progress-bar\x27);\n",
      "\n",
      "  var splash = document.querySelector(\x27.splash\x27);\n",
      "  var error = document.querySelector(\x27.error\x27);\n",
      "  var progressBar = document.querySelector(\x27.progress\x27);\n",
      "  var progressBarFill = document.querySelector(\x27.progress-bar\x27);\n",
      "\n",
      "  var player = new P.player.Player();\n",
      "  player.setOptions(\x7b theme: \x27dark\x27 \x7d);\n",
      "  var errorHandler = new P.player.ErrorHandler(player, \x7b\n",
      "    container: document.querySelector(\x27.error-report\x27),\n",
      "  \x7d);\n",
      "  player.onprogress.subscribe(function(progress) \x7b\n",
      "    progressBarFill.style.width = (10 + progress * 90) + \x27%\x27;\n",
      "  \x7d);\n",
      "  player.onerror.subscribe(function(e) \x7b\n",
      "    player.exitFullscreen();\n",
      "    error.style.display = \x27table\x27;\n",
      "  \x7d);\n",
      "  document.querySelector(\x27.player\x27).appendChild(player.root);\n",
      "\n",
      "  document.addEventListener(\x27touchmove\x27, function(e) \x7b\n",
      "    e.preventDefault();\n",
      "  \x7d);\n",
      "\n",
      "  P.io.setAssetManager(new class \x7b\n",
      "    constructor() \x7b\n",
      "      // Assets...\n" ]

/-- Lines 358 to 373 of `packer.js`, a stretch of the template literal of `run`
without interpolation. -/
def bodyPart3 : String :=
  String.join
    [ "    \x7d\n",
      "\n",
      "    loadSoundbankFile(src) \x7b\n",
      "      return this.fetch(\x27soundbank/\x27 + src).then(function(e) \x7b return e.arrayBuffer(); \x7d);\n",
      "    \x7d\n",
      "\n",
      "    loadFont(src) \x7b\n",
      "      return this.fetch(src).then(function(e) \x7b return e.blob(); \x7d);\n",
      "    \x7d\n",
      "\n",
      "    fetch(u) \x7b\n",
      "      return fetch(this.data[u]);\n",
      "    \x7d\n",
      "  \x7d);\n",
      "\n",
      "  // Project type...\n" ]

/-- Lines 375 to 375 of `packer.js`, a stretch of the template literal of `run`
without interpolation. -/
def bodyPart4 : String :=
  String.join
    [ "  // Project data...\n" ]

/-- Lines 377 to 378 of `packer.js`, a stretch of the template literal of `run`
without interpolation. -/
def bodyPart5 : String :=
  String.join
    [ "\n",
      "  // Player options...\n" ]

/-- Lines 380 to 380 of `packer.js`, a stretch of the template literal of `run`
without interpolation. -/
def bodyPart6 : String :=
  String.join
    [ "  // Controls options...\n" ]

/-- Lines 382 to 400 of `packer.js`, a stretch of the template literal of `run`
without interpolation. -/
def bodyPart7 : String :=
  String.join
    [ "\n",
      "  player.setOptions(playerOptions);\n",
      "  if (controlsOptions) \x7b\n",
      "    player.addControls(controlsOptions);\n",
      "  \x7d\n",
      "\n",
      "  fetch(project)\n",
      "    .then(function(request) \x7b return request.arrayBuffer(); \x7d)\n",
      "    .then(function(buffer) \x7b return player.loadProjectFromBuffer(buffer, type); \x7d)\n",
      "    .then(function() \x7b\n",
      "      player.enterFullscreen();\n",
      "      splash.style.display = \x27none\x27;\n",
      "    \x7d)\n",
      "    .catch(function(e) \x7b\n",
      "      player.handleError(e);\n",
      "    \x7d);\n",
      "\x7d());\n",
      "    </script>\n",
      "  </body>\n" ]

/-- The operand test `!x` on a field that holds a string or `null`. -/
def isFalsy : Option String → Bool
  | none => true
  | some x => x = ""

/-- The constant `assetManagerData` of `run`; a missing `data` prints as
`undefined`. -/
def assetManagerData (assets : List PackagerAsset) : String :=
  "\x7b" ++ ", ".intercalate (assets.map
    (fun asset => "\"" ++ asset.src ++ "\": \"" ++ asset.data.getD "undefined" ++ "\"")) ++ "\x7d"

/-- The constant `body` of `run`: the template literal, with the texts that
`JSON.stringify` gives for `this.playerOptions` and `this.controlsOptions` as
arguments. -/
def body (styles scripts assetManagerData projectType projectData playerOptions
    controlsOptions : String) : String :=
  bodyPart0 ++ styles ++ "\n" ++ bodyPart1 ++ scripts ++ "\n" ++ bodyPart2 ++
    "      this.data = " ++ assetManagerData ++ ";\n" ++ bodyPart3 ++ "  var type = \x27" ++
    projectType ++ "\x27;\n" ++ bodyPart4 ++ "  var project = \x27" ++ projectData ++
    "\x27;\n" ++ bodyPart5 ++ "  var playerOptions = " ++ playerOptions ++ ";\n" ++
    bodyPart6 ++ "  var controlsOptions = " ++ controlsOptions ++ ";\n" ++ bodyPart7 ++
    "</html>"

/-- One call of `run`, seen from outside. -/
structure RunResult where
  /-- The call of `this.fileLoader.loadMissingAssets()`, if one was made. -/
  loading : Option FileLoader.LoadRun
  /-- What the returned promise settles with. -/
  out : Settled String

/-- The method `run()` of `Packager`, for the loader `this.fileLoader`, the
network and completion order of its `loadMissingAssets` call, and the texts
`JSON.stringify` gives for the two option objects. -/
def Packager.run (net : Net) (order : List Req) (fileLoader : FileLoader)
    (playerOptions controlsOptions : String) (p : Packager) : RunResult :=
  if isFalsy p.projectData ∨ isFalsy p.projectType then
    { loading := none, out := .rejected (.error "missing project data or type") }
  else
    let loading := FileLoader.loadMissingAssets net order fileLoader
    match loading.out with
    | .resolved r =>
      { loading := some loading
        out := .resolved (body r.styles r.scripts (assetManagerData r.assets)
          (p.projectType.getD "null") (p.projectData.getD "null") playerOptions controlsOptions) }
    | .rejected e => { loading := some loading, out := .rejected e }
    | .pending => { loading := some loading, out := .pending }

end Packer

/-! ## Sample inputs -/

/-- A downloader result with one entry, of the given result type. -/
def sampleResult (type : String) : SBDLResult :=
  { type := type, files := [{ path := "project.json", data := ⟨[123, 125]⟩ }] }

/-- A metadata response with the given status and body. -/
def sampleResponse (status : Nat) (body : Json) : Response :=
  { status := status, body := .ok body }

/-- A world for `packer.js` in which the metadata endpoint answers `res`, the
downloader answers `result`, zipping yields one update per entry and every read
succeeds. -/
def Packer.sampleEnv (res : Response) (result : SBDLResult) : Packer.Env :=
  { fetch := fun _ => .ok res
    loadProject := fun _ _ => .ok result
    generateAsync := fun files =>
      { updates := files.map (fun f => { percent := 100, currentFile := some f.path })
        result := .ok ⟨files.flatMap (fun f => f.data.bytes)⟩ }
    readAsDataURL := fun _ => some "data:application/zip;base64,UEsFBg==" }

/-- A zip archive whose only entry is `project.json` with the given text. -/
def sampleZip (text : String) : Zip :=
  { file := fun name => if name = "project.json" then some (.ok text) else none }

/-- A world for `packager.js` in which the metadata endpoint answers `res`, the
downloader answers `result`, every local archive holds a `project.json` that
parses to `manifest`, and every read succeeds after one progress event. -/
def PackagerScript.sampleEnv (res : Response) (result : SBDLResult) (manifest : Json) :
    PackagerScript.Env :=
  { fetch := fun _ => .ok res
    loadProject := fun _ _ => .ok result
    generateAsync := fun files =>
      { updates := files.map (fun f => { percent := 100, currentFile := some f.path })
        result := .ok ⟨files.flatMap (fun f => f.data.bytes)⟩ }
    read := fun b =>
      { events := [{ lengthComputable := true, loaded := b.bytes.length, total := b.bytes.length }]
        result := some "data:application/zip;base64,UEsFBg==" }
    loadAsync := fun _ => .ok (sampleZip "manifest")
    parse := fun _ => .ok manifest }

/-- A project manifest that carries both discriminator fields. -/
def bothFields : Json := .obj [("objName", .str "Stage"), ("targets", .arr [])]

/-- A user-selected file of the given name. -/
def sampleFile (name : String) : File := { name := name, blob := ⟨[80, 75, 5, 6]⟩ }

/-- A manifest of two scripts, a stylesheet and a font, nothing loaded yet. -/
def sampleLoader : Packer.FileLoader :=
  { files := [{ type := "script", src := "lib/jszip.min.js", loaded := false, content := none },
              { type := "style", src := "phosphorus.css", loaded := false, content := none },
              { type := "script", src := "phosphorus.dist.js", loaded := false, content := none }]
    assets := [{ src := "fonts/Scratch.ttf", loaded := false, data := none }] }

/-- A network on which every request succeeds. -/
def sampleNet : Packer.Net :=
  { text := fun i => .ok ("source " ++ toString i)
    url := fun i => .ok ("data:font/ttf;base64," ++ toString i) }

/-- A network on which the request for the file at position 1 fails and every
other request succeeds. -/
def failingNet : Packer.Net :=
  { text := fun i => if i = 1 then .error (.external "NetworkError") else .ok ("source " ++ toString i)
    url := fun i => .ok ("data:font/ttf;base64," ++ toString i) }

/-- A manifest whose entries were all loaded by an earlier call. -/
def cachedLoader : Packer.FileLoader :=
  { files := [{ type := "script", src := "phosphorus.dist.js", loaded := true,
                content := some "/* F: phosphorus.dist.js */var P = 1;" }]
    assets := [{ src := "fonts/Scratch.ttf", loaded := true,
                 data := some "data:font/ttf;base64,AAEC" }] }

/-- A world for `packager.js` like `PackagerScript.sampleEnv`, except that the
zip library reports one update, at 50 percent, before it resolves. -/
def halfwayEnv : PackagerScript.Env :=
  { PackagerScript.sampleEnv (sampleResponse 200 (.obj [("targets", .arr [])]))
      (sampleResult "zip") .null with
    generateAsync := fun files =>
      { updates := [{ percent := 50, currentFile := some "project.json" }]
        result := .ok ⟨files.flatMap (fun f => f.data.bytes)⟩ } }

/-- A world for `packager.js` in which no blob can be read. -/
def unreadableEnv : PackagerScript.Env :=
  { PackagerScript.sampleEnv (sampleResponse 200 (.obj [("targets", .arr [])]))
      (sampleResult "zip") .null with
    read := fun _ =>
      { events := [{ lengthComputable := false, loaded := 0, total := 0 }], result := none } }

/-- A packager after a load method has resolved. -/
def loadedPackager : Packer.Packager :=
  { projectType := some "sb3", projectData := some "data:application/zip;base64,UEsFBg==" }

/-! ## Theorems -/

/-! ### Sequencing -/

theorem Run.bind_def {C α β : Type} (x : Run C α) (f : α → Run C β) :
    (x >>= f) = Run.bind x f := rfl

theorem Run.pure_def {C α : Type} (a : α) : (Pure.pure a : Run C α) = Run.pure a := rfl

theorem Run.bind_ok {C α β : Type} {x : Run C α} {a : α} (h : x.out = .ok a)
    (f : α → Run C β) : Run.bind x f = ⟨x.log ++ (f a).log, (f a).out⟩ := by
  simp [Run.bind, h]

theorem Run.bind_error {C α β : Type} {x : Run C α} {e : Err} (h : x.out = .error e)
    (f : α → Run C β) : Run.bind x f = ⟨x.log, .error e⟩ := by
  simp [Run.bind, h]

theorem Run.bind_out_ok {C α β : Type} {x : Run C α} {f : α → Run C β} {b : β}
    (h : (Run.bind x f).out = .ok b) : ∃ a, x.out = .ok a ∧ (f a).out = .ok b := by
  unfold Run.bind at h
  split at h
  · cases h
  · next a ha => exact ⟨a, ha, h⟩

/-! ### Project type by identifier -/

/-- C1 fails as stated: the body `null`, returned with status 200, has neither
a `targets` nor an `objName` field, yet both classifiers reject with the
`TypeError` of the `in` operator, not with `unknown project type`. -/
theorem C1_primitive_body_counterexample :
    Json.null.ownKeys = none ∧
    (Packer.Packager._getProjectTypeById
        (Packer.sampleEnv (sampleResponse 200 .null) (sampleResult "zip")) "104").out =
      .error .typeError ∧
    (PackagerScript.getProjectTypeById
        (PackagerScript.sampleEnv (sampleResponse 200 .null) (sampleResult "zip") .null)
        "104").out = .error .typeError ∧
    Err.typeError ≠ Err.error "unknown project type" :=
  ⟨rfl, rfl, rfl, by decide⟩

/-- C1, amended: when the metadata endpoint answers with status 200 and a JSON
body, both `_getProjectTypeById` of `packer.js` and `getProjectTypeById` of
`packager.js` behave as follows.  For a body that is an object (or an array),
with own keys `keys`, they resolve with `sb3` if `targets` is among the keys,
else with `sb2` if `objName` is, and otherwise reject with the error
`unknown project type`.  For a body that is not an object (`null`, a boolean,
a number, a string) they reject with the `TypeError` of the `in` operator. -/
theorem C1_project_type_by_id (env : Packer.Env) (penv : PackagerScript.Env) (id : String)
    (res pres : Response) (data : Json)
    (hfetch : env.fetch ("https://projects.scratch.mit.edu/" ++ id) = .ok res)
    (hstatus : res.status = 200) (hbody : res.body = .ok data)
    (hpfetch : penv.fetch (jsReplace PackagerScript.PROJECT_API "$id" id) = .ok pres)
    (hpstatus : pres.status = 200) (hpbody : pres.body = .ok data) :
    (Packer.Packager._getProjectTypeById env id).out =
        (match data.ownKeys with
         | none => .error .typeError
         | some keys =>
           if "targets" ∈ keys then .ok "sb3"
           else if "objName" ∈ keys then .ok "sb2"
           else .error (.error "unknown project type")) ∧
      (PackagerScript.getProjectTypeById penv id).out =
        (match data.ownKeys with
         | none => .error .typeError
         | some keys =>
           if "targets" ∈ keys then .ok "sb3"
           else if "objName" ∈ keys then .ok "sb2"
           else .error (.error "unknown project type")) := by
  have _ := hpstatus
  cases hkeys : data.ownKeys with
  | none =>
    constructor
    · simp [Packer.Packager._getProjectTypeById, Run.bind_def, Run.bind, Run.call, Run.eval,
        hfetch, hstatus, hbody, jsIn, hkeys]
    · simp [PackagerScript.getProjectTypeById, PackagerScript.fetch, Run.bind_def,
        Run.pure_def, Run.bind, Run.call, Run.eval, Run.pure, Run.emit, hpfetch, hpbody, jsIn,
        hkeys]
  | some keys =>
    constructor
    · simp only [Packer.Packager._getProjectTypeById, Run.bind_def, Run.pure_def, Run.bind,
        Run.call, Run.eval, Run.fail, Run.pure, hfetch, hstatus, hbody, jsIn, hkeys]
      by_cases h1 : "targets" ∈ keys <;> by_cases h2 : "objName" ∈ keys <;>
        simp [h1, h2, Run.pure]
    · simp only [PackagerScript.getProjectTypeById, PackagerScript.fetch, Run.bind_def,
        Run.pure_def, Run.bind, Run.call, Run.eval, Run.fail, Run.pure, Run.emit, hpfetch,
        hpbody, jsIn, hkeys]
      by_cases h1 : "targets" ∈ keys <;> by_cases h2 : "objName" ∈ keys <;>
        simp [h1, h2, Run.pure]

/-- C1, amended, at the three bodies of the specification and at a string body:
an object with only `targets` gives `sb3`, an object with only `objName` gives
`sb2`, the empty object fails with `unknown project type`, and a string fails
with a `TypeError`. -/
theorem C1_project_type_by_id_witness :
    ((Packer.Packager._getProjectTypeById
          (Packer.sampleEnv (sampleResponse 200 (.obj [("targets", .arr [])])) (sampleResult "zip"))
          "104").out = .ok "sb3" ∧
      (PackagerScript.getProjectTypeById
          (PackagerScript.sampleEnv (sampleResponse 200 (.obj [("targets", .arr [])]))
            (sampleResult "zip") .null) "104").out = .ok "sb3") ∧
    ((Packer.Packager._getProjectTypeById
          (Packer.sampleEnv (sampleResponse 200 (.obj [("objName", .str "x")])) (sampleResult "zip"))
          "104").out = .ok "sb2" ∧
      (PackagerScript.getProjectTypeById
          (PackagerScript.sampleEnv (sampleResponse 200 (.obj [("objName", .str "x")]))
            (sampleResult "zip") .null) "104").out = .ok "sb2") ∧
    ((Packer.Packager._getProjectTypeById
          (Packer.sampleEnv (sampleResponse 200 (.obj [])) (sampleResult "zip"))
          "104").out = .error (.error "unknown project type") ∧
      (PackagerScript.getProjectTypeById
          (PackagerScript.sampleEnv (sampleResponse 200 (.obj [])) (sampleResult "zip") .null)
          "104").out = .error (.error "unknown project type")) ∧
    ((Packer.Packager._getProjectTypeById
          (Packer.sampleEnv (sampleResponse 200 (.str "targets")) (sampleResult "zip"))
          "104").out = .error .typeError ∧
      (PackagerScript.getProjectTypeById
          (PackagerScript.sampleEnv (sampleResponse 200 (.str "targets")) (sampleResult "zip")
            .null) "104").out = .error .typeError) :=
  ⟨C1_project_type_by_id _ _ "104" _ _ (.obj [("targets", .arr [])])
      rfl rfl rfl rfl rfl rfl,
    C1_project_type_by_id _ _ "104" _ _ (.obj [("objName", .str "x")])
      rfl rfl rfl rfl rfl rfl,
    C1_project_type_by_id _ _ "104" _ _ (.obj []) rfl rfl rfl rfl rfl rfl,
    C1_project_type_by_id _ _ "104" _ _ (.str "targets") rfl rfl rfl rfl rfl rfl⟩

theorem status_message_ne (n : Nat) :
    "Cannot get project, got error code: " ++ toString n ≠ "Project does not exist" := by
  intro h
  have := congrArg String.data h
  simp at this

/-- C2: when the metadata endpoint answers with a status other than 200,
`_getProjectById` rejects, with `Project does not exist` exactly when the status
is 404 and otherwise with a message that ends in the status code; its only call
is the metadata fetch, so the project downloader, `_createArchive` and
`readAsURL` are not invoked. -/
theorem C2_non_200_rejects (env : Packer.Env) (id : String) (res : Response)
    (hfetch : env.fetch ("https://projects.scratch.mit.edu/" ++ id) = .ok res)
    (hstatus : res.status ≠ 200) :
    (Packer.Packager._getProjectById env id).out =
        .error (if res.status = 404 then .error "Project does not exist"
                else .error ("Cannot get project, got error code: " ++ toString res.status)) ∧
      ((Packer.Packager._getProjectById env id).out = .error (.error "Project does not exist")
        ↔ res.status = 404) ∧
      (Packer.Packager._getProjectById env id).log =
        [Packer.Call.fetch ("https://projects.scratch.mit.edu/" ++ id)] ∧
      (∀ i t, Packer.Call.loadProject i t ∉ (Packer.Packager._getProjectById env id).log) ∧
      (∀ fs, Packer.Call.createArchive fs ∉ (Packer.Packager._getProjectById env id).log) ∧
      (∀ b, Packer.Call.readAsURL b ∉ (Packer.Packager._getProjectById env id).log) := by
  have hrun : Packer.Packager._getProjectById env id =
      ⟨[Packer.Call.fetch ("https://projects.scratch.mit.edu/" ++ id)],
        .error (if res.status = 404 then .error "Project does not exist"
                else .error ("Cannot get project, got error code: " ++ toString res.status))⟩ := by
    simp only [Packer.Packager._getProjectById, Packer.Packager._getProjectTypeById,
      Run.bind_def, Run.bind, Run.call, Run.fail, hfetch]
    by_cases h404 : res.status = 404 <;> simp [hstatus, h404]
  rw [hrun]
  refine ⟨rfl, ?_, rfl, ?_, ?_, ?_⟩
  · by_cases h404 : res.status = 404
    · simp [h404]
    · simp [h404, status_message_ne]
  · intro i t; simp
  · intro fs; simp
  · intro b; simp

/-- C2 at a 404 response and at a 500 response. -/
theorem C2_non_200_rejects_witness :
    (Packer.Packager._getProjectById
        (Packer.sampleEnv (sampleResponse 404 .null) (sampleResult "zip")) "104").out =
      .error (.error "Project does not exist") ∧
    (Packer.Packager._getProjectById
        (Packer.sampleEnv (sampleResponse 500 .null) (sampleResult "zip")) "104").out =
      .error (.error "Cannot get project, got error code: 500") ∧
    (Packer.Packager._getProjectById
        (Packer.sampleEnv (sampleResponse 404 .null) (sampleResult "zip")) "104").log =
      [Packer.Call.fetch "https://projects.scratch.mit.edu/104"] :=
  ⟨(C2_non_200_rejects (Packer.sampleEnv (sampleResponse 404 .null) (sampleResult "zip")) "104"
      (sampleResponse 404 .null) rfl (by decide)).1,
    (C2_non_200_rejects (Packer.sampleEnv (sampleResponse 500 .null) (sampleResult "zip")) "104"
      (sampleResponse 500 .null) rfl (by decide)).1,
    (C2_non_200_rejects (Packer.sampleEnv (sampleResponse 404 .null) (sampleResult "zip")) "104"
      (sampleResponse 404 .null) rfl (by decide)).2.2.1⟩

/-! ### The two discriminators -/

/-- C3 fails as stated: for a manifest that has both `objName` and `targets`,
`getProjectTypeById` answers `sb3` while `getProjectByFile` answers `sb2`. -/
theorem C3_same_rule_counterexample :
    (PackagerScript.getProjectTypeById
        (PackagerScript.sampleEnv (sampleResponse 200 bothFields) (sampleResult "zip") bothFields)
        "104").out = .ok "sb3" ∧
    (PackagerScript.getProjectByFile
        (PackagerScript.sampleEnv (sampleResponse 200 bothFields) (sampleResult "zip") bothFields)
        (sampleFile "project.sb3")).out =
      .ok { url := "data:application/zip;base64,UEsFBg==", type := "sb2" } := by
  constructor <;> rfl

/-- C3, amended: for a parsed `project.json` value that does not have both
`targets` and `objName`, `getProjectByFile` (when the file can be read) and
`getProjectTypeById` on the same value agree: one resolves with a format
exactly when the other resolves with that format, one fails with its
unknown-project-type error exactly when the other does, and likewise for the
`TypeError` of a value that is not an object.  When both fields are present
`getProjectByFile` answers `sb2` (it tests `objName` first) and
`getProjectTypeById` answers `sb3` (it tests `targets` first). -/
theorem C3_same_rule_unless_both (penv : PackagerScript.Env) (file : File) (id : String) (zip : Zip)
    (text : String) (json : Json) (res : Response) (u : String)
    (hzip : penv.loadAsync file = .ok zip)
    (hentry : zip.file "project.json" = some (.ok text))
    (hparse : penv.parse text = .ok json)
    (hfetch : penv.fetch (jsReplace PackagerScript.PROJECT_API "$id" id) = .ok res)
    (hbody : res.body = .ok json)
    (hread : (penv.read file.blob).result = some u) :
    (¬ (jsIn "targets" json = .ok true ∧ jsIn "objName" json = .ok true) →
      (∀ t, (PackagerScript.getProjectByFile penv file).out = .ok { url := u, type := t } ↔
        (PackagerScript.getProjectTypeById penv id).out = .ok t) ∧
      ((PackagerScript.getProjectByFile penv file).out =
          .error (.error "unknown project type (invalid project?)") ↔
        (PackagerScript.getProjectTypeById penv id).out = .error (.error "unknown project type")) ∧
      ((PackagerScript.getProjectByFile penv file).out = .error .typeError ↔
        (PackagerScript.getProjectTypeById penv id).out = .error .typeError)) ∧
    (jsIn "targets" json = .ok true ∧ jsIn "objName" json = .ok true →
      (PackagerScript.getProjectByFile penv file).out = .ok { url := u, type := "sb2" } ∧
      (PackagerScript.getProjectTypeById penv id).out = .ok "sb3") := by
  have hid : (PackagerScript.getProjectTypeById penv id).out =
      (match jsIn "targets" json with
       | .error e => .error e
       | .ok true => .ok "sb3"
       | .ok false =>
         match jsIn "objName" json with
         | .error e => .error e
         | .ok true => .ok "sb2"
         | .ok false => .error (.error "unknown project type")) := by
    simp only [PackagerScript.getProjectTypeById, PackagerScript.fetch, Run.bind_def,
      Run.pure_def, Run.bind, Run.call, Run.eval, Run.fail, Run.pure, Run.emit, hfetch, hbody]
    cases h1 : jsIn "targets" json with
    | error e => simp
    | ok b =>
      cases b
      · cases h2 : jsIn "objName" json with
        | error e => simp
        | ok b => cases b <;> simp [Run.pure]
      · simp [Run.pure]
  have hfile : (PackagerScript.getProjectByFile penv file).out =
      (match jsIn "objName" json with
       | .error e => .error e
       | .ok true => .ok { url := u, type := "sb2" }
       | .ok false =>
         match jsIn "targets" json with
         | .error e => .error e
         | .ok true => .ok { url := u, type := "sb3" }
         | .ok false => .error (.error "unknown project type (invalid project?)")) := by
    simp only [PackagerScript.getProjectByFile, PackagerScript.readBlob, Run.bind_def,
      Run.pure_def, Run.bind, Run.call, Run.eval, Run.fail, Run.pure, Run.emit, Run.emitAll,
      hzip, hentry, hparse, hread]
    cases h1 : jsIn "objName" json with
    | error e => simp
    | ok b =>
      cases b
      · cases h2 : jsIn "targets" json with
        | error e => simp
        | ok b => cases b <;> simp [Run.pure]
      · simp [Run.pure]
  rw [hid, hfile]
  unfold jsIn
  cases hk : json.ownKeys with
  | none => simp
  | some keys =>
    by_cases h1 : "targets" ∈ keys <;> by_cases h2 : "objName" ∈ keys <;> simp [h1, h2]


/-- C3, amended, at a manifest with only `targets` and at one with both fields. -/
theorem C3_same_rule_unless_both_witness :
    ((PackagerScript.getProjectByFile
          (PackagerScript.sampleEnv (sampleResponse 200 (.obj [("targets", .arr [])]))
            (sampleResult "zip") (.obj [("targets", .arr [])]))
          (sampleFile "project.sb3")).out =
        .ok { url := "data:application/zip;base64,UEsFBg==", type := "sb3" } ↔
      (PackagerScript.getProjectTypeById
          (PackagerScript.sampleEnv (sampleResponse 200 (.obj [("targets", .arr [])]))
            (sampleResult "zip") (.obj [("targets", .arr [])])) "104").out = .ok "sb3") ∧
    ((PackagerScript.getProjectByFile
          (PackagerScript.sampleEnv (sampleResponse 200 bothFields) (sampleResult "zip") bothFields)
          (sampleFile "project.sb3")).out =
        .ok { url := "data:application/zip;base64,UEsFBg==", type := "sb2" } ∧
      (PackagerScript.getProjectTypeById
          (PackagerScript.sampleEnv (sampleResponse 200 bothFields) (sampleResult "zip") bothFields)
          "104").out = .ok "sb3") :=
  ⟨((C3_same_rule_unless_both
      (PackagerScript.sampleEnv (sampleResponse 200 (.obj [("targets", .arr [])]))
        (sampleResult "zip") (.obj [("targets", .arr [])]))
      (sampleFile "project.sb3") "104" (sampleZip "manifest") "manifest"
      (.obj [("targets", .arr [])]) (sampleResponse 200 (.obj [("targets", .arr [])]))
      "data:application/zip;base64,UEsFBg==" rfl rfl rfl rfl rfl rfl).1
      (by simp [jsIn, Json.ownKeys])).1 "sb3",
    (C3_same_rule_unless_both
      (PackagerScript.sampleEnv (sampleResponse 200 bothFields) (sampleResult "zip") bothFields)
      (sampleFile "project.sb3") "104" (sampleZip "manifest") "manifest"
      bothFields (sampleResponse 200 bothFields)
      "data:application/zip;base64,UEsFBg==" rfl rfl rfl rfl rfl rfl).2
      (by simp [jsIn, Json.ownKeys, bothFields])⟩

/-! ### Format of a loaded project -/

theorem jsSplit_ne_nil (sep : Char) (l : List Char) : jsSplit sep l ≠ [] := by
  cases l with
  | nil => simp [jsSplit]
  | cons c cs =>
    unfold jsSplit
    split
    · simp
    · split <;> simp

theorem jsSplit_append (sep : Char) (a b : List Char) :
    jsSplit sep (a ++ sep :: b) = jsSplit sep a ++ jsSplit sep b := by
  induction a with
  | nil => simp [jsSplit]
  | cons c a ih =>
    by_cases hc : c = sep
    · simp [jsSplit, hc, ih]
    · cases h : jsSplit sep a with
      | nil => exact absurd h (jsSplit_ne_nil sep a)
      | cons x xs =>
        rw [h] at ih
        simp [jsSplit, hc, ih, h]

theorem jsSplit_of_not_mem (sep : Char) (l : List Char) (h : sep ∉ l) : jsSplit sep l = [l] := by
  induction l with
  | nil => simp [jsSplit]
  | cons c cs ih =>
    simp only [List.mem_cons, not_or] at h
    have hc : ¬ c = sep := fun e => h.1 e.symm
    simp [jsSplit, hc, ih h.2]

theorem extensionOf_append (stem ext : String) (h : '.' ∉ ext.toList) :
    extensionOf (stem ++ "." ++ ext) = ext := by
  have hl : (stem ++ "." ++ ext).toList = stem.toList ++ '.' :: ext.toList := by
    simp [String.toList]
  unfold extensionOf
  rw [hl, jsSplit_append, jsSplit_of_not_mem _ _ h]
  simp

theorem extensionOf_of_no_dot (name : String) (h : '.' ∉ name.toList) :
    extensionOf name = name := by
  unfold extensionOf
  rw [jsSplit_of_not_mem _ _ h]
  simp

theorem packer_typeById_out (env : Packer.Env) (id t : String)
    (h : (Packer.Packager._getProjectTypeById env id).out = .ok t) : t = "sb2" ∨ t = "sb3" := by
  revert h
  simp only [Packer.Packager._getProjectTypeById, Run.bind_def, Run.pure_def, Run.bind,
    Run.call, Run.eval, Run.fail, Run.pure]
  repeat' split
  all_goals simp
  all_goals aesop

theorem script_typeById_out (env : PackagerScript.Env) (id t : String)
    (h : (PackagerScript.getProjectTypeById env id).out = .ok t) : t = "sb2" ∨ t = "sb3" := by
  revert h
  simp only [PackagerScript.getProjectTypeById, PackagerScript.fetch, Run.bind_def,
    Run.pure_def, Run.bind, Run.call, Run.eval, Run.fail, Run.pure, Run.emit]
  repeat' split
  all_goals simp
  all_goals aesop

theorem packer_projectById_type (env : Packer.Env) (id : String) (r : ProjectResult)
    (h : (Packer.Packager._getProjectById env id).out = .ok r) :
    r.type = "sb2" ∨ r.type = "sb3" := by
  simp only [Packer.Packager._getProjectById, Run.bind_def, Run.pure_def] at h
  obtain ⟨t, ht, h⟩ := Run.bind_out_ok h
  obtain ⟨res, _, h⟩ := Run.bind_out_ok h
  split at h
  · cases h
  · obtain ⟨archive, _, h⟩ := Run.bind_out_ok h
    obtain ⟨url, _, h⟩ := Run.bind_out_ok h
    simp only [Run.pure, Except.ok.injEq] at h
    subst h
    exact packer_typeById_out env id t ht

theorem script_projectById_type (env : PackagerScript.Env) (id : String)
    (r : ProjectResult) (h : (PackagerScript.getProjectById env id).out = .ok r) :
    r.type = "sb2" ∨ r.type = "sb3" := by
  simp only [PackagerScript.getProjectById, Run.bind_def, Run.pure_def] at h
  obtain ⟨t, ht, h⟩ := Run.bind_out_ok h
  obtain ⟨_, _, h⟩ := Run.bind_out_ok h
  obtain ⟨res, _, h⟩ := Run.bind_out_ok h
  split at h
  · cases h
  · obtain ⟨archive, _, h⟩ := Run.bind_out_ok h
    obtain ⟨_, _, h⟩ := Run.bind_out_ok h
    obtain ⟨url, _, h⟩ := Run.bind_out_ok h
    simp only [Run.pure, Except.ok.injEq] at h
    subst h
    exact script_typeById_out env id t ht

theorem script_projectByFile_type (env : PackagerScript.Env) (file : File)
    (r : ProjectResult) (h : (PackagerScript.getProjectByFile env file).out = .ok r) :
    r.type = "sb2" ∨ r.type = "sb3" := by
  simp only [PackagerScript.getProjectByFile, Run.bind_def, Run.pure_def] at h
  obtain ⟨_, _, h⟩ := Run.bind_out_ok h
  obtain ⟨zip, _, h⟩ := Run.bind_out_ok h
  obtain ⟨text, _, h⟩ := Run.bind_out_ok h
  obtain ⟨json, _, h⟩ := Run.bind_out_ok h
  obtain ⟨hasObjName, _, h⟩ := Run.bind_out_ok h
  split at h
  · obtain ⟨t, ht, h⟩ := Run.bind_out_ok h
    obtain ⟨_, _, h⟩ := Run.bind_out_ok h
    obtain ⟨_, _, h⟩ := Run.bind_out_ok h
    obtain ⟨url, _, h⟩ := Run.bind_out_ok h
    simp only [Run.pure, Except.ok.injEq] at h ht
    subst h
    exact Or.inl ht.symm
  · obtain ⟨hasTargets, _, h⟩ := Run.bind_out_ok h
    split at h
    · obtain ⟨t, ht, h⟩ := Run.bind_out_ok h
      obtain ⟨_, _, h⟩ := Run.bind_out_ok h
      obtain ⟨_, _, h⟩ := Run.bind_out_ok h
      obtain ⟨url, _, h⟩ := Run.bind_out_ok h
      simp only [Run.pure, Except.ok.injEq] at h ht
      subst h
      exact Or.inr ht.symm
    · obtain ⟨t, ht, h⟩ := Run.bind_out_ok h
      cases ht

/-- C4 fails as stated: `loadProjectFromFile` on a readable file named
`notes.txt` resolves and leaves the project type `txt`. -/
theorem C4_format_counterexample :
    (Packer.Packager.loadProjectFromFile
        (Packer.sampleEnv (sampleResponse 200 .null) (sampleResult "zip"))
        (some (sampleFile "notes.txt")) { projectType := none, projectData := none }).out =
      .ok { projectType := some "txt",
            projectData := some "data:application/zip;base64,UEsFBg==" } ∧
    some "txt" ≠ some "sb2" ∧ some "txt" ≠ some "sb3" := by
  refine ⟨rfl, by decide, by decide⟩

/-- C4, amended: after `loadProjectById` resolves the project type is `sb2` or
`sb3`, and so is the type returned by `getProjectById` and by
`getProjectByFile`; after `loadProjectFromFile` resolves the project type is
the last dot-separated piece of the file's name (the text after the last dot,
or the whole name when it has no dot), so it is `sb2` or `sb3` only for a file
so named. -/
theorem C4_format_of_loaded_project (env : Packer.Env) (penv : PackagerScript.Env) (id : String)
    (file : File) (p : Packer.Packager) :
    (∀ p', (Packer.Packager.loadProjectById env id p).out = .ok p' →
      p'.projectType = some "sb2" ∨ p'.projectType = some "sb3") ∧
    (∀ r, (PackagerScript.getProjectById penv id).out = .ok r → r.type = "sb2" ∨ r.type = "sb3") ∧
    (∀ r, (PackagerScript.getProjectByFile penv file).out = .ok r →
      r.type = "sb2" ∨ r.type = "sb3") ∧
    (∀ p', (Packer.Packager.loadProjectFromFile env (some file) p).out = .ok p' →
      p'.projectType = some (extensionOf file.name) ∧
      (∀ stem ext : String, file.name = stem ++ "." ++ ext → '.' ∉ ext.toList →
        p'.projectType = some ext) ∧
      ('.' ∉ file.name.toList → p'.projectType = some file.name)) := by
  refine ⟨?_, script_projectById_type penv id,
    script_projectByFile_type penv file, ?_⟩
  · intro p' h
    simp only [Packer.Packager.loadProjectById, Run.bind_def, Run.pure_def] at h
    obtain ⟨r, hr, h⟩ := Run.bind_out_ok h
    simp only [Run.pure, Except.ok.injEq] at h
    subst h
    simpa using packer_projectById_type env id r hr
  · intro p' h
    simp only [Packer.Packager.loadProjectFromFile, Run.call] at h
    split at h
    · simp only [Except.ok.injEq] at h
      subst h
      refine ⟨rfl, ?_, ?_⟩
      · intro stem ext hname hext
        simp [hname, extensionOf_append stem ext hext]
      · intro hdot
        simp [extensionOf_of_no_dot file.name hdot]
    · cases h

/-- C4, amended, at a project loaded by identifier and at a file named
`notes.txt`. -/
theorem C4_format_of_loaded_project_witness :
    ((Packer.Packager.loadProjectById
          (Packer.sampleEnv (sampleResponse 200 (.obj [("targets", .arr [])])) (sampleResult "zip"))
          "104" { projectType := none, projectData := none }).out =
        .ok { projectType := some "sb3",
              projectData := some "data:application/zip;base64,UEsFBg==" } ∧
      ((some "sb3" : Option String) = some "sb2" ∨ (some "sb3" : Option String) = some "sb3")) ∧
    ((Packer.Packager.loadProjectFromFile
          (Packer.sampleEnv (sampleResponse 200 (.obj [("targets", .arr [])])) (sampleResult "zip"))
          (some (sampleFile "notes.txt")) { projectType := none, projectData := none }).out =
        .ok { projectType := some "txt",
              projectData := some "data:application/zip;base64,UEsFBg==" } ∧
      (some "txt" : Option String) = some (extensionOf "notes.txt")) :=
  ⟨⟨rfl, (C4_format_of_loaded_project
      (Packer.sampleEnv (sampleResponse 200 (.obj [("targets", .arr [])])) (sampleResult "zip"))
      (PackagerScript.sampleEnv (sampleResponse 200 .null) (sampleResult "zip") .null)
      "104" (sampleFile "notes.txt") { projectType := none, projectData := none }).1
      { projectType := some "sb3", projectData := some "data:application/zip;base64,UEsFBg==" }
      rfl⟩,
    ⟨rfl, ((C4_format_of_loaded_project
      (Packer.sampleEnv (sampleResponse 200 (.obj [("targets", .arr [])])) (sampleResult "zip"))
      (PackagerScript.sampleEnv (sampleResponse 200 .null) (sampleResult "zip") .null)
      "104" (sampleFile "notes.txt") { projectType := none, projectData := none }).2.2.2
      { projectType := some "txt", projectData := some "data:application/zip;base64,UEsFBg==" }
      rfl).1⟩⟩

/-! ### Downloader results -/

theorem packer_typeById_log (env : Packer.Env) (id : String) :
    ∀ c ∈ (Packer.Packager._getProjectTypeById env id).log,
      c = Packer.Call.fetch ("https://projects.scratch.mit.edu/" ++ id) ∨ c = Packer.Call.json := by
  intro c
  simp only [Packer.Packager._getProjectTypeById, Run.bind_def, Run.pure_def, Run.bind, Run.call,
    Run.eval, Run.fail, Run.pure]
  repeat' split
  all_goals simp
  all_goals aesop

theorem packer_createArchive_log (env : Packer.Env) (files : List FileEntry) :
    ∀ fs, Packer.Call.createArchive fs ∈ (Packer.Packager._createArchive env files).log ↔
      fs = files := by
  intro fs
  simp [Packer.Packager._createArchive, Run.bind_def, Run.bind, Run.emit, Run.emitAll, Run.eval]

theorem script_typeById_log (env : PackagerScript.Env) (id : String) :
    ∀ c ∈ (PackagerScript.getProjectTypeById env id).log,
      (∀ fs, c ≠ PackagerScript.Call.createArchive fs) ∧
        (∀ b, c ≠ PackagerScript.Call.readBlob b) := by
  intro c
  simp only [PackagerScript.getProjectTypeById, PackagerScript.fetch, Run.bind_def, Run.pure_def,
    Run.bind, Run.call, Run.eval, Run.fail, Run.pure, Run.emit]
  repeat' split
  all_goals simp
  all_goals aesop

theorem script_createArchive_log (env : PackagerScript.Env) (files : List FileEntry) :
    ∀ fs, PackagerScript.Call.createArchive fs ∈ (PackagerScript.createArchive env files).log ↔
      fs = files := by
  intro fs
  simp [PackagerScript.createArchive, Run.bind_def, Run.bind, Run.emit, Run.emitAll, Run.eval]

theorem script_readBlob_log (env : PackagerScript.Env) (blob : Blob) :
    ∀ fs, PackagerScript.Call.createArchive fs ∉
      (PackagerScript.readBlob env blob
        (some (fun progress => [PackagerScript.Call.percent progress]))).log := by
  intro fs
  simp only [PackagerScript.readBlob, Run.bind_def, Run.pure_def, Run.bind, Run.emit,
    Run.emitAll, Run.fail, Run.pure]
  split <;> simp

/-- C5: once the project type is known and the downloader has answered, a
result whose `type` is not `zip` makes `_getProjectById` (`packer.js`) and
`getProjectById` (`packager.js`) reject with `unknown result type: ` followed
by that type, without any call of the archive builder or of the data-URL
encoder; a result of type `zip` has the archive builder called with exactly
the result's file list. -/
theorem C5_unsupported_result (env : Packer.Env) (penv : PackagerScript.Env)
    (id type ptype : String) (result presult : SBDLResult)
    (htype : (Packer.Packager._getProjectTypeById env id).out = .ok type)
    (hload : env.loadProject id type = .ok result)
    (hptype : (PackagerScript.getProjectTypeById penv id).out = .ok ptype)
    (hpload : penv.loadProject id ptype = .ok presult) :
    (result.type ≠ "zip" →
        (Packer.Packager._getProjectById env id).out =
          .error (.error ("unknown result type: " ++ result.type)) ∧
        (∀ fs, Packer.Call.createArchive fs ∉ (Packer.Packager._getProjectById env id).log) ∧
        (∀ b, Packer.Call.readAsURL b ∉ (Packer.Packager._getProjectById env id).log)) ∧
      (result.type = "zip" →
        ∀ fs, Packer.Call.createArchive fs ∈ (Packer.Packager._getProjectById env id).log ↔
          fs = result.files) ∧
      (presult.type ≠ "zip" →
        (PackagerScript.getProjectById penv id).out =
          .error (.error ("unknown result type: " ++ presult.type)) ∧
        (∀ fs, PackagerScript.Call.createArchive fs ∉
          (PackagerScript.getProjectById penv id).log) ∧
        (∀ b, PackagerScript.Call.readBlob b ∉ (PackagerScript.getProjectById penv id).log)) ∧
      (presult.type = "zip" →
        ∀ fs, PackagerScript.Call.createArchive fs ∈
            (PackagerScript.getProjectById penv id).log ↔ fs = presult.files) := by
  have hlog := packer_typeById_log env id
  have hplog := script_typeById_log penv id
  refine ⟨?_, ?_, ?_, ?_⟩
  · intro hz
    have hrun : Packer.Packager._getProjectById env id =
        ⟨(Packer.Packager._getProjectTypeById env id).log ++ [Packer.Call.loadProject id type],
          .error (.error ("unknown result type: " ++ result.type))⟩ := by
      simp only [Packer.Packager._getProjectById, Run.bind_def, Run.bind_ok htype]
      simp [Run.bind, Run.call, hload, hz, Run.fail]
    rw [hrun]
    refine ⟨rfl, ?_, ?_⟩
    · intro fs hmem
      simp only [List.mem_append, List.mem_singleton] at hmem
      rcases hmem with h | h
      · rcases hlog _ h with h | h <;> cases h
      · cases h
    · intro b hmem
      simp only [List.mem_append, List.mem_singleton] at hmem
      rcases hmem with h | h
      · rcases hlog _ h with h | h <;> cases h
      · cases h
  · intro hz fs
    have hrun : (Packer.Packager._getProjectById env id).log =
        (Packer.Packager._getProjectTypeById env id).log ++ [Packer.Call.loadProject id type] ++
          (Run.bind (Packer.Packager._createArchive env result.files) (fun archive =>
            Run.bind (Packer.readAsURL env archive) (fun url =>
              (Run.pure { url := url, type := type } : Run Packer.Call ProjectResult)))).log := by
      simp only [Packer.Packager._getProjectById, Run.bind_def, Run.bind_ok htype]
      simp [Run.bind, Run.call, hload, hz, Run.pure_def]
    rw [hrun]
    have harch := packer_createArchive_log env result.files fs
    simp only [List.mem_append, List.mem_singleton]
    constructor
    · rintro ((h | h) | h)
      · rcases hlog _ h with h | h <;> cases h
      · cases h
      · revert h
        simp only [Run.bind]
        split
        · intro h; exact harch.mp h
        · simp only [List.mem_append]
          rintro (h | h)
          · exact harch.mp h
          · revert h
            simp only [Packer.readAsURL, Run.call]
            split <;> simp [Run.pure]
    · intro h
      right
      simp only [Run.bind]
      split
      · exact harch.mpr h
      · exact List.mem_append_left _ (harch.mpr h)
  · intro hz
    have hrun : PackagerScript.getProjectById penv id =
        ⟨(PackagerScript.getProjectTypeById penv id).log ++
            [PackagerScript.Call.createProgressBar "Loading project",
             PackagerScript.Call.loadProject id ptype],
          .error (.error ("unknown result type: " ++ presult.type))⟩ := by
      simp only [PackagerScript.getProjectById, Run.bind_def, Run.bind_ok hptype]
      simp [Run.bind, Run.call, Run.emit, hpload, hz, Run.fail]
    rw [hrun]
    refine ⟨rfl, ?_, ?_⟩
    · intro fs hmem
      simp only [List.mem_append, List.mem_cons, List.mem_singleton] at hmem
      rcases hmem with h | h | h | h
      · exact (hplog _ h).1 fs rfl
      · cases h
      · cases h
      · cases h
    · intro b hmem
      simp only [List.mem_append, List.mem_cons, List.mem_singleton] at hmem
      rcases hmem with h | h | h | h
      · exact (hplog _ h).2 b rfl
      · cases h
      · cases h
      · cases h
  · intro hz fs
    have hrun : (PackagerScript.getProjectById penv id).log =
        (PackagerScript.getProjectTypeById penv id).log ++
          [PackagerScript.Call.createProgressBar "Loading project",
           PackagerScript.Call.loadProject id ptype] ++
          (Run.bind (PackagerScript.createArchive penv presult.files) (fun blob =>
            Run.bind (Run.emit (PackagerScript.Call.createProgressBar "Reading archive"))
              (fun _ =>
                Run.bind (PackagerScript.readBlob penv blob
                    (some (fun progress => [PackagerScript.Call.percent progress])))
                  (fun url =>
                    (Run.pure { url := url, type := ptype } :
                      Run PackagerScript.Call ProjectResult))))).log := by
      simp only [PackagerScript.getProjectById, Run.bind_def, Run.bind_ok hptype]
      simp [Run.bind, Run.call, Run.emit, hpload, hz, Run.pure_def]
    rw [hrun]
    have harch := script_createArchive_log penv presult.files fs
    simp only [List.mem_append, List.mem_cons, List.mem_singleton]
    constructor
    · rintro ((h | h | h | h) | h)
      · exact absurd rfl ((hplog _ h).1 fs)
      · cases h
      · cases h
      · cases h
      · revert h
        simp only [Run.bind]
        split
        · intro h; exact harch.mp h
        · simp only [List.mem_append, Run.emit]
          rintro (h | h)
          · exact harch.mp h
          · revert h
            split
            · simp only [List.mem_singleton, List.mem_append]
              rintro (h | h)
              · cases h
              · exact absurd h (script_readBlob_log penv _ fs)
            · simp only [List.mem_singleton, List.mem_append, Run.pure, List.append_nil]
              rintro (h | h)
              · cases h
              · exact absurd h (script_readBlob_log penv _ fs)
    · intro h
      right
      simp only [Run.bind]
      split
      · exact harch.mpr h
      · exact List.mem_append_left _ (harch.mpr h)

/-- C5 at a downloader result of type `json` and at one of type `zip`. -/
theorem C5_unsupported_result_witness :
    ((Packer.Packager._getProjectById
          (Packer.sampleEnv (sampleResponse 200 (.obj [("targets", .arr [])])) (sampleResult "json"))
          "104").out = .error (.error "unknown result type: json") ∧
      (PackagerScript.getProjectById
          (PackagerScript.sampleEnv (sampleResponse 200 (.obj [("targets", .arr [])]))
            (sampleResult "json") .null) "104").out =
        .error (.error "unknown result type: json")) ∧
    (Packer.Call.createArchive (sampleResult "zip").files ∈
        (Packer.Packager._getProjectById
          (Packer.sampleEnv (sampleResponse 200 (.obj [("targets", .arr [])])) (sampleResult "zip"))
          "104").log ∧
      PackagerScript.Call.createArchive (sampleResult "zip").files ∈
        (PackagerScript.getProjectById
          (PackagerScript.sampleEnv (sampleResponse 200 (.obj [("targets", .arr [])]))
            (sampleResult "zip") .null) "104").log) :=
  ⟨⟨((C5_unsupported_result
        (Packer.sampleEnv (sampleResponse 200 (.obj [("targets", .arr [])])) (sampleResult "json"))
        (PackagerScript.sampleEnv (sampleResponse 200 (.obj [("targets", .arr [])]))
          (sampleResult "json") .null)
        "104" "sb3" "sb3" (sampleResult "json") (sampleResult "json") rfl rfl rfl rfl).1
        (by decide)).1,
      ((C5_unsupported_result
        (Packer.sampleEnv (sampleResponse 200 (.obj [("targets", .arr [])])) (sampleResult "json"))
        (PackagerScript.sampleEnv (sampleResponse 200 (.obj [("targets", .arr [])]))
          (sampleResult "json") .null)
        "104" "sb3" "sb3" (sampleResult "json") (sampleResult "json") rfl rfl rfl rfl).2.2.1
        (by decide)).1⟩,
    ⟨((C5_unsupported_result
        (Packer.sampleEnv (sampleResponse 200 (.obj [("targets", .arr [])])) (sampleResult "zip"))
        (PackagerScript.sampleEnv (sampleResponse 200 (.obj [("targets", .arr [])]))
          (sampleResult "zip") .null)
        "104" "sb3" "sb3" (sampleResult "zip") (sampleResult "zip") rfl rfl rfl rfl).2.1
        (by decide) _).mpr rfl,
      ((C5_unsupported_result
        (Packer.sampleEnv (sampleResponse 200 (.obj [("targets", .arr [])])) (sampleResult "zip"))
        (PackagerScript.sampleEnv (sampleResponse 200 (.obj [("targets", .arr [])]))
          (sampleResult "zip") .null)
        "104" "sb3" "sb3" (sampleResult "zip") (sampleResult "zip") rfl rfl rfl rfl).2.2.2
        (by decide) _).mpr rfl⟩⟩


/-! ### The file loader -/

namespace Packer.FileLoader

theorem settle_files (net : Net) (s : FileLoader) (r : Req) (j : Nat) :
    (settle net s r).files[j]? =
      (s.files[j]?).map (fun f => if r = Req.file j then loadedFile net j f else f) := by
  cases r with
  | asset i =>
    have : (settle net s (Req.asset i)).files = s.files := by
      simp only [settle, _loadAsset]
      split <;> rfl
    rw [this]
    simp
  | file i =>
    simp only [settle, _loadFile, loadedFile]
    cases hf : s.files[i]? with
    | none =>
      by_cases hij : i = j
      · subst hij; simp [hf]
      · simp [hij]
    | some file =>
      cases ht : net.text i with
      | error e =>
        by_cases hij : i = j
        · subst hij; simp [hf, ht]
        · simp [hij]
      | ok t =>
        by_cases hij : i = j
        · subst hij
          have hlt : i < s.files.length := by
            by_contra hge
            rw [List.getElem?_eq_none (by omega)] at hf
            cases hf
          simp [List.getElem?_set, hlt, hf, ht]
        · simp [List.getElem?_set, hij]

theorem settle_assets (net : Net) (s : FileLoader) (r : Req) (j : Nat) :
    (settle net s r).assets[j]? =
      (s.assets[j]?).map (fun a => if r = Req.asset j then loadedAsset net j a else a) := by
  cases r with
  | file i =>
    have : (settle net s (Req.file i)).assets = s.assets := by
      simp only [settle, _loadFile]
      split <;> rfl
    rw [this]
    simp
  | asset i =>
    simp only [settle, _loadAsset, loadedAsset]
    cases hf : s.assets[i]? with
    | none =>
      by_cases hij : i = j
      · subst hij; simp [hf]
      · simp [hij]
    | some asset =>
      cases ht : net.url i with
      | error e =>
        by_cases hij : i = j
        · subst hij; simp [hf, ht]
        · simp [hij]
      | ok t =>
        by_cases hij : i = j
        · subst hij
          have hlt : i < s.assets.length := by
            by_contra hge
            rw [List.getElem?_eq_none (by omega)] at hf
            cases hf
          simp [List.getElem?_set, hlt, hf, ht]
        · simp [List.getElem?_set, hij]

theorem loadedFile_idem (net : Net) (j : Nat) (f : PackagerFile) :
    loadedFile net j (loadedFile net j f) = loadedFile net j f := by
  unfold loadedFile
  split <;> rfl

theorem loadedAsset_idem (net : Net) (j : Nat) (a : PackagerAsset) :
    loadedAsset net j (loadedAsset net j a) = loadedAsset net j a := by
  unfold loadedAsset
  split <;> rfl

theorem settleAll_files (net : Net) (done : List Req) (s : FileLoader) (j : Nat) :
    (settleAll net s done).files[j]? =
      (s.files[j]?).map (fun f => if Req.file j ∈ done then loadedFile net j f else f) := by
  induction done generalizing s with
  | nil => simp [settleAll]
  | cons r rs ih =>
    have hstep : settleAll net s (r :: rs) = settleAll net (settle net s r) rs := rfl
    rw [hstep, ih, settle_files]
    cases s.files[j]? with
    | none => rfl
    | some f =>
      simp only [Option.map_some', List.mem_cons]
      by_cases h1 : r = Req.file j
      · subst h1
        by_cases h2 : Req.file j ∈ rs <;> simp [h2, loadedFile_idem]
      · have h1' : ¬ Req.file j = r := fun e => h1 e.symm
        simp [h1, h1']

theorem settleAll_assets (net : Net) (done : List Req) (s : FileLoader) (j : Nat) :
    (settleAll net s done).assets[j]? =
      (s.assets[j]?).map (fun a => if Req.asset j ∈ done then loadedAsset net j a else a) := by
  induction done generalizing s with
  | nil => simp [settleAll]
  | cons r rs ih =>
    have hstep : settleAll net s (r :: rs) = settleAll net (settle net s r) rs := rfl
    rw [hstep, ih, settle_assets]
    cases s.assets[j]? with
    | none => rfl
    | some f =>
      simp only [Option.map_some', List.mem_cons]
      by_cases h1 : r = Req.asset j
      · subst h1
        by_cases h2 : Req.asset j ∈ rs <;> simp [h2, loadedAsset_idem]
      · have h1' : ¬ Req.asset j = r := fun e => h1 e.symm
        simp [h1, h1']

theorem settleAll_congr (net : Net) (s : FileLoader) (d₁ d₂ : List Req)
    (h : ∀ r, r ∈ d₁ ↔ r ∈ d₂) : settleAll net s d₁ = settleAll net s d₂ := by
  have hf : (settleAll net s d₁).files = (settleAll net s d₂).files := by
    apply List.ext_getElem?
    intro j
    rw [settleAll_files, settleAll_files]
    simp [h]
  have ha : (settleAll net s d₁).assets = (settleAll net s d₂).assets := by
    apply List.ext_getElem?
    intro j
    rw [settleAll_assets, settleAll_assets]
    simp [h]
  cases h₁ : settleAll net s d₁
  cases h₂ : settleAll net s d₂
  simp_all

theorem mem_missingFiles (s : FileLoader) (i : Nat) :
    i ∈ missingFiles s ↔ ∃ f, s.files[i]? = some f ∧ f.loaded = false := by
  simp only [missingFiles, List.mem_filter, List.mem_range]
  constructor
  · rintro ⟨hlt, h⟩
    rw [List.getElem?_eq_getElem hlt] at h ⊢
    exact ⟨_, rfl, by simpa using h⟩
  · rintro ⟨f, hf, hl⟩
    have hlt : i < s.files.length := by
      by_contra hge
      rw [List.getElem?_eq_none (by omega)] at hf
      cases hf
    exact ⟨hlt, by simp [hf, hl]⟩

theorem mem_missingAssets (s : FileLoader) (i : Nat) :
    i ∈ missingAssets s ↔ ∃ a, s.assets[i]? = some a ∧ a.loaded = false := by
  simp only [missingAssets, List.mem_filter, List.mem_range]
  constructor
  · rintro ⟨hlt, h⟩
    rw [List.getElem?_eq_getElem hlt] at h ⊢
    exact ⟨_, rfl, by simpa using h⟩
  · rintro ⟨f, hf, hl⟩
    have hlt : i < s.assets.length := by
      by_contra hge
      rw [List.getElem?_eq_none (by omega)] at hf
      cases hf
    exact ⟨hlt, by simp [hf, hl]⟩

theorem file_mem_launched (s : FileLoader) (i : Nat) :
    Req.file i ∈ launched s ↔ ∃ f, s.files[i]? = some f ∧ f.loaded = false := by
  simp [launched, mem_missingFiles]

theorem asset_mem_launched (s : FileLoader) (i : Nat) :
    Req.asset i ∈ launched s ↔ ∃ a, s.assets[i]? = some a ∧ a.loaded = false := by
  simp [launched, mem_missingAssets]

end Packer.FileLoader

theorem mem_completions {ρ : Type} [DecidableEq ρ] (launched order : List ρ) (r : ρ) :
    r ∈ completions launched order ↔ r ∈ order ∧ r ∈ launched := by
  simp [completions, List.mem_dedup]

theorem firstFailure_eq_none {ρ : Type} (outcome : ρ → Except Err Unit) (l : List ρ) :
    firstFailure outcome l = none ↔ ∀ r ∈ l, outcome r = .ok () := by
  induction l with
  | nil => simp [firstFailure]
  | cons r rs ih =>
    simp only [firstFailure, List.mem_cons, forall_eq_or_imp]
    cases h : outcome r with
    | error e => simp
    | ok u => simp [ih]

theorem firstFailure_eq_some {ρ : Type} (outcome : ρ → Except Err Unit) (l : List ρ)
    (before : List ρ) (e : Err) (h : firstFailure outcome l = some (before, e)) :
    ∃ r rest, l = before ++ r :: rest ∧ outcome r = .error e ∧
      ∀ r' ∈ before, outcome r' = .ok () := by
  induction l generalizing before with
  | nil => simp [firstFailure] at h
  | cons r rs ih =>
    simp only [firstFailure] at h
    cases ho : outcome r with
    | error e' =>
      simp only [ho, Option.some.injEq, Prod.mk.injEq] at h
      obtain ⟨hb, he⟩ := h
      subst hb he
      exact ⟨r, rs, rfl, ho, by simp⟩
    | ok u =>
      simp only [ho, Option.map_eq_some'] at h
      obtain ⟨⟨b', e'⟩, hff, hp⟩ := h
      simp only [Prod.mk.injEq] at hp
      obtain ⟨hb, he⟩ := hp
      subst hb he
      obtain ⟨r₀, rest, hl, hr₀, hall⟩ := ih b' hff
      refine ⟨r₀, rest, by simp [hl], hr₀, ?_⟩
      intro r' hr'
      simp only [List.mem_cons] at hr'
      rcases hr' with h | h
      · subst h; exact ho
      · exact hall r' h

namespace Packer.FileLoader

theorem outcome_file_ok (net : Net) (i : Nat) (h : outcome net (Req.file i) = .ok ()) :
    ∃ t, net.text i = .ok t := by
  simp only [outcome] at h
  cases ht : net.text i with
  | error e => rw [ht] at h; cases h
  | ok t => exact ⟨t, rfl⟩

theorem outcome_asset_ok (net : Net) (i : Nat) (h : outcome net (Req.asset i) = .ok ()) :
    ∃ u, net.url i = .ok u := by
  simp only [outcome] at h
  cases ht : net.url i with
  | error e => rw [ht] at h; cases h
  | ok t => exact ⟨t, rfl⟩

theorem launched_eq_nil (s : FileLoader)
    (h : ¬ ((missingFiles s).length > 0 ∨ (missingAssets s).length > 0)) : launched s = [] := by
  simp only [gt_iff_lt, List.length_pos, ne_eq, not_or, not_not] at h
  simp [launched, h.1, h.2]

/-- A call that resolves: its value and the loader it leaves are those of all
launched requests having completed, each of them successfully. -/
theorem resolved_inv (net : Net) (order : List Req) (s : FileLoader) (r : LoadResult)
    (h : (loadMissingAssets net order s).out = .resolved r) :
    r = result (settleAll net s (launched s)) ∧
      (loadMissingAssets net order s).atSettle = settleAll net s (launched s) ∧
      (loadMissingAssets net order s).atEnd = settleAll net s (launched s) ∧
      ∀ q ∈ launched s, outcome net q = .ok () := by
  unfold loadMissingAssets at h ⊢
  by_cases hc : (missingFiles s).length > 0 ∨ (missingAssets s).length > 0
  · rw [if_pos hc] at h ⊢
    dsimp only at h ⊢
    cases hff : firstFailure (outcome net) (completions (launched s) order) with
    | some p =>
      rw [hff] at h
      cases h
    | none =>
      rw [hff] at h
      dsimp only at h ⊢
      by_cases hall : ((launched s).all fun r => decide (r ∈ completions (launched s) order)) = true
      · rw [if_pos hall] at h ⊢
        have hmem : ∀ q, q ∈ completions (launched s) order ↔ q ∈ launched s := by
          intro q
          rw [mem_completions]
          constructor
          · exact fun hq => hq.2
          · intro hq
            have := (List.all_eq_true.mp hall) q hq
            have hq' : q ∈ completions (launched s) order := by simpa using this
            exact ⟨((mem_completions _ _ _).mp hq').1, hq⟩
        have hcongr := settleAll_congr net s _ _ hmem
        refine ⟨?_, hcongr, hcongr, ?_⟩
        · simp only [Settled.resolved.injEq] at h
          rw [← h, hcongr]
        · intro q hq
          exact (firstFailure_eq_none _ _).mp hff q ((hmem q).mpr hq)
      · rw [if_neg hall] at h
        cases h
  · rw [if_neg hc] at h ⊢
    have hl := launched_eq_nil s hc
    simp only [Settled.resolved.injEq] at h
    simp [hl, settleAll, h]

theorem missing_after_settle (net : Net) (s : FileLoader)
    (hok : ∀ q ∈ launched s, outcome net q = .ok ()) :
    missingFiles (settleAll net s (launched s)) = [] ∧
      missingAssets (settleAll net s (launched s)) = [] := by
  constructor
  · rw [List.eq_nil_iff_forall_not_mem]
    intro i hi
    rw [mem_missingFiles, settleAll_files] at hi
    obtain ⟨f', hf', hl⟩ := hi
    cases hs : s.files[i]? with
    | none => rw [hs] at hf'; cases hf'
    | some f =>
      rw [hs] at hf'
      simp only [Option.map_some', Option.some.injEq] at hf'
      by_cases hm : Req.file i ∈ launched s
      · obtain ⟨t, ht⟩ := outcome_file_ok net i (hok _ hm)
        rw [if_pos hm] at hf'
        subst hf'
        simp [loadedFile, ht] at hl
      · rw [if_neg hm] at hf'
        subst hf'
        exact hm ((file_mem_launched s i).mpr ⟨_, hs, hl⟩)
  · rw [List.eq_nil_iff_forall_not_mem]
    intro i hi
    rw [mem_missingAssets, settleAll_assets] at hi
    obtain ⟨f', hf', hl⟩ := hi
    cases hs : s.assets[i]? with
    | none => rw [hs] at hf'; cases hf'
    | some f =>
      rw [hs] at hf'
      simp only [Option.map_some', Option.some.injEq] at hf'
      by_cases hm : Req.asset i ∈ launched s
      · obtain ⟨t, ht⟩ := outcome_asset_ok net i (hok _ hm)
        rw [if_pos hm] at hf'
        subst hf'
        simp [loadedAsset, ht] at hl
      · rw [if_neg hm] at hf'
        subst hf'
        exact hm ((asset_mem_launched s i).mpr ⟨_, hs, hl⟩)

theorem run_of_none_missing (net : Net) (order : List Req) (s : FileLoader)
    (hf : missingFiles s = []) (ha : missingAssets s = []) :
    loadMissingAssets net order s =
      { log := [], out := .resolved (result s), atSettle := s, atEnd := s } := by
  simp [loadMissingAssets, hf, ha]

theorem fetch_injective :
    Function.Injective (fun p : String => Call.fetch ("../" ++ p)) := by
  intro p q h
  simp only [Call.fetch.injEq] at h
  have hd := congrArg String.data h
  simp only [String.data_append, List.append_cancel_left_eq] at hd
  exact String.ext hd

theorem range_map_src (s : FileLoader) :
    (List.range s.files.length).map (fun i => ((s.files[i]?).map (fun f => f.src)).getD "") =
      s.files.map (fun f => f.src) := by
  apply List.ext_getElem?
  intro j
  by_cases hj : j < s.files.length
  · simp [List.getElem?_range hj, List.getElem?_eq_getElem hj]
  · simp [List.getElem?_eq_none (Nat.le_of_not_lt hj)]
    omega

theorem range_map_asset_src (s : FileLoader) :
    (List.range s.assets.length).map (fun i => ((s.assets[i]?).map (fun a => a.src)).getD "") =
      s.assets.map (fun a => a.src) := by
  apply List.ext_getElem?
  intro j
  by_cases hj : j < s.assets.length
  · simp [List.getElem?_range hj, List.getElem?_eq_getElem hj]
  · simp [List.getElem?_eq_none (Nat.le_of_not_lt hj)]
    omega

theorem log_eq (net : Net) (order : List Req) (s : FileLoader) :
    (loadMissingAssets net order s).log =
      if (missingFiles s).length > 0 ∨ (missingAssets s).length > 0 then
        Call.progressStart :: (launched s).map (fun r => Call.fetch (urlOf s r))
      else [] := by
  unfold loadMissingAssets
  split
  · dsimp only
    split
    · rfl
    · split <;> rfl
  · rfl

/-- The fetches of one call, as paths: a sublist of the manifest's sources. -/
theorem fetch_count_le (net : Net) (order : List Req) (s : FileLoader) (p : String) :
    (loadMissingAssets net order s).log.count (Call.fetch ("../" ++ p)) ≤
      (s.files.map (fun f => f.src) ++ s.assets.map (fun a => a.src)).count p := by
  have hsub : ((missingFiles s).map (fun i => ((s.files[i]?).map (fun f => f.src)).getD "") ++
      (missingAssets s).map (fun i => ((s.assets[i]?).map (fun a => a.src)).getD "")).Sublist
        (s.files.map (fun f => f.src) ++ s.assets.map (fun a => a.src)) := by
    rw [← range_map_src, ← range_map_asset_src]
    exact List.Sublist.append ((List.filter_sublist _).map _) ((List.filter_sublist _).map _)
  have hfetch : (launched s).map (fun r => Call.fetch (urlOf s r)) =
      ((missingFiles s).map (fun i => ((s.files[i]?).map (fun f => f.src)).getD "") ++
        (missingAssets s).map (fun i => ((s.assets[i]?).map (fun a => a.src)).getD "")).map
          (fun p => Call.fetch ("../" ++ p)) := by
    simp [launched, urlOf, Function.comp_def]
  rw [log_eq]
  split
  · rw [List.count_cons, hfetch, List.count_map_of_injective _ _ fetch_injective]
    simpa using hsub.count_le p
  · simp

end Packer.FileLoader

namespace Packer.FileLoader

theorem atEnd_eq (net : Net) (order : List Req) (s : FileLoader) :
    (loadMissingAssets net order s).atEnd = settleAll net s (completions (launched s) order) := by
  unfold loadMissingAssets
  split
  · dsimp only
    split
    · rfl
    · split <;> rfl
  · next hc =>
    simp [launched_eq_nil s hc, completions, settleAll]

theorem atSettle_eq (net : Net) (order : List Req) (s : FileLoader) :
    ∃ d, (∀ r ∈ d, r ∈ completions (launched s) order) ∧
      (loadMissingAssets net order s).atSettle = settleAll net s d := by
  unfold loadMissingAssets
  split
  · dsimp only
    cases hff : firstFailure (outcome net) (completions (launched s) order) with
    | some p =>
      obtain ⟨before, e⟩ := p
      obtain ⟨r, rest, hl, _, _⟩ := firstFailure_eq_some _ _ _ _ hff
      refine ⟨before, ?_, rfl⟩
      intro r' hr'
      rw [hl]
      exact List.mem_append_left _ hr'
    | none =>
      dsimp only
      split
      · exact ⟨_, fun _ h => h, rfl⟩
      · exact ⟨_, fun _ h => h, rfl⟩
  · exact ⟨[], by simp, rfl⟩

theorem rejected_of_failure (net : Net) (order : List Req) (s : FileLoader) (q : Req) (e₀ : Err)
    (hq : q ∈ launched s) (hqo : q ∈ order) (hfail : outcome net q = .error e₀) :
    ∃ e, (loadMissingAssets net order s).out = .rejected e ∧
      ∃ q' ∈ launched s, outcome net q' = .error e := by
  have hc : (missingFiles s).length > 0 ∨ (missingAssets s).length > 0 := by
    by_contra hc
    rw [launched_eq_nil s hc] at hq
    cases hq
  have hqc : q ∈ completions (launched s) order := (mem_completions _ _ _).mpr ⟨hqo, hq⟩
  unfold loadMissingAssets
  rw [if_pos hc]
  dsimp only
  cases hff : firstFailure (outcome net) (completions (launched s) order) with
  | none =>
    have := (firstFailure_eq_none _ _).mp hff q hqc
    rw [hfail] at this
    cases this
  | some p =>
    obtain ⟨before, e⟩ := p
    obtain ⟨r, rest, hl, hr, _⟩ := firstFailure_eq_some _ _ _ _ hff
    refine ⟨e, rfl, r, ?_, hr⟩
    have : r ∈ completions (launched s) order := by rw [hl]; simp
    exact ((mem_completions _ _ _).mp this).2

end Packer.FileLoader

namespace Packer.FileLoader

/-- A call resolves as soon as every launched request completes successfully. -/
theorem resolves_of_all_ok (net : Net) (order : List Req) (s : FileLoader)
    (h : ∀ q ∈ launched s, q ∈ order ∧ outcome net q = .ok ()) :
    (loadMissingAssets net order s).out = .resolved (result (settleAll net s (launched s))) := by
  have hmem : ∀ q, q ∈ completions (launched s) order ↔ q ∈ launched s := by
    intro q
    rw [mem_completions]
    exact ⟨fun hq => hq.2, fun hq => ⟨(h q hq).1, hq⟩⟩
  have hff : firstFailure (outcome net) (completions (launched s) order) = none :=
    (firstFailure_eq_none _ _).mpr (fun q hq => (h q ((hmem q).mp hq)).2)
  have hall : ((launched s).all fun r => decide (r ∈ completions (launched s) order)) = true := by
    rw [List.all_eq_true]
    intro q hq
    simpa using (hmem q).mpr hq
  unfold loadMissingAssets
  by_cases hc : (missingFiles s).length > 0 ∨ (missingAssets s).length > 0
  · rw [if_pos hc]
    dsimp only
    rw [hff]
    dsimp only
    rw [if_pos hall, settleAll_congr net s _ _ hmem]
  · rw [if_neg hc]
    simp [launched_eq_nil s hc, settleAll]

/-- Completions keep every loaded file tagged with its source. -/
theorem tagged_settleAll (net : Net) (s : FileLoader) (done : List Req) (h : Tagged s) :
    Tagged (settleAll net s done) := by
  intro i f' hf' hl'
  rw [settleAll_files] at hf'
  cases hs : s.files[i]? with
  | none => rw [hs] at hf'; cases hf'
  | some f =>
    rw [hs] at hf'
    simp only [Option.map_some', Option.some.injEq] at hf'
    by_cases hm : Req.file i ∈ done
    · rw [if_pos hm] at hf'
      subst hf'
      unfold loadedFile at hl' ⊢
      cases ht : net.text i with
      | ok t => exact ⟨t, rfl⟩
      | error e =>
        rw [ht] at hl'
        exact h i f hs hl'
    · rw [if_neg hm] at hf'
      subst hf'
      exact h i f hs hl'

end Packer.FileLoader

/-- C6: when a call of `loadMissingAssets` resolves and the method is called
again on the same loader, the second call makes no call at all (no fetch, no
`progress.start()`), resolves with the same scripts, styles and assets, and
leaves the loader as it was.  Over both calls a path is fetched at most as
often as the manifest lists it, hence at most once in a manifest whose sources
are pairwise distinct. -/
theorem C6_cache_idempotence (net₁ net₂ : Packer.Net) (order₁ order₂ : List Packer.Req)
    (s : Packer.FileLoader) (r : Packer.FileLoader.LoadResult)
    (h : (Packer.FileLoader.loadMissingAssets net₁ order₁ s).out = .resolved r) :
    (Packer.FileLoader.loadMissingAssets net₂ order₂
        (Packer.FileLoader.loadMissingAssets net₁ order₁ s).atSettle).log = [] ∧
    (Packer.FileLoader.loadMissingAssets net₂ order₂
        (Packer.FileLoader.loadMissingAssets net₁ order₁ s).atSettle).out = .resolved r ∧
    (Packer.FileLoader.loadMissingAssets net₂ order₂
        (Packer.FileLoader.loadMissingAssets net₁ order₁ s).atSettle).atEnd =
      (Packer.FileLoader.loadMissingAssets net₁ order₁ s).atSettle ∧
    (∀ p : String,
      ((Packer.FileLoader.loadMissingAssets net₁ order₁ s).log ++
        (Packer.FileLoader.loadMissingAssets net₂ order₂
          (Packer.FileLoader.loadMissingAssets net₁ order₁ s).atSettle).log).count
          (Packer.Call.fetch ("../" ++ p)) ≤
        (s.files.map (fun f => f.src) ++ s.assets.map (fun a => a.src)).count p) ∧
    ((s.files.map (fun f => f.src) ++ s.assets.map (fun a => a.src)).Nodup →
      ∀ p : String,
        ((Packer.FileLoader.loadMissingAssets net₁ order₁ s).log ++
          (Packer.FileLoader.loadMissingAssets net₂ order₂
            (Packer.FileLoader.loadMissingAssets net₁ order₁ s).atSettle).log).count
            (Packer.Call.fetch ("../" ++ p)) ≤ 1) := by
  obtain ⟨hr, hsettle, _, hok⟩ := Packer.FileLoader.resolved_inv net₁ order₁ s r h
  obtain ⟨hmf, hma⟩ := Packer.FileLoader.missing_after_settle net₁ s hok
  rw [← hsettle] at hmf hma
  have hsecond := Packer.FileLoader.run_of_none_missing net₂ order₂ _ hmf hma
  rw [hsecond]
  have hcount : ∀ p : String,
      ((Packer.FileLoader.loadMissingAssets net₁ order₁ s).log ++ []).count
          (Packer.Call.fetch ("../" ++ p)) ≤
        (s.files.map (fun f => f.src) ++ s.assets.map (fun a => a.src)).count p := by
    intro p
    rw [List.append_nil]
    exact Packer.FileLoader.fetch_count_le net₁ order₁ s p
  refine ⟨rfl, ?_, rfl, hcount, ?_⟩
  · rw [hr, hsettle]
  · intro hnd p
    exact le_trans (hcount p) (List.nodup_iff_count_le_one.mp hnd p)

/-- C6 on the sample manifest: nothing is fetched by a second call. -/
theorem C6_cache_idempotence_witness :
    (Packer.FileLoader.loadMissingAssets failingNet []
        (Packer.FileLoader.loadMissingAssets sampleNet
          [.asset 0, .file 2, .file 0, .file 1] sampleLoader).atSettle).log = [] ∧
    (Packer.FileLoader.loadMissingAssets failingNet []
        (Packer.FileLoader.loadMissingAssets sampleNet
          [.asset 0, .file 2, .file 0, .file 1] sampleLoader).atSettle).out =
      .resolved
        { scripts := "/* F: lib/jszip.min.js */source 0\n/* F: phosphorus.dist.js */source 2"
          styles := "/* F: phosphorus.css */source 1"
          assets := [{ src := "fonts/Scratch.ttf", loaded := true,
                       data := some "data:font/ttf;base64,0" }] } :=
  have h := C6_cache_idempotence sampleNet failingNet [.asset 0, .file 2, .file 0, .file 1] []
    sampleLoader
    { scripts := "/* F: lib/jszip.min.js */source 0\n/* F: phosphorus.dist.js */source 2"
      styles := "/* F: phosphorus.css */source 1"
      assets := [{ src := "fonts/Scratch.ttf", loaded := true,
                   data := some "data:font/ttf;base64,0" }] }
    (by decide)
  ⟨h.1, h.2.1⟩

/-- C7 fails as stated: on the sample manifest, when the stylesheet's request
fails after the first script's request has succeeded, `loadMissingAssets`
rejects, yet that script, not loaded before the call, is marked loaded with
its content at the moment of the rejection. -/
theorem C7_no_partial_success_counterexample :
    (Packer.FileLoader.loadMissingAssets failingNet
        [.file 0, .file 1, .file 2, .asset 0] sampleLoader).out =
      .rejected (.external "NetworkError") ∧
    sampleLoader.files[0]? =
      some { type := "script", src := "lib/jszip.min.js", loaded := false, content := none } ∧
    (Packer.FileLoader.loadMissingAssets failingNet
        [.file 0, .file 1, .file 2, .asset 0] sampleLoader).atSettle.files[0]? =
      some { type := "script", src := "lib/jszip.min.js", loaded := true,
             content := some "/* F: lib/jszip.min.js */source 0" } := by
  decide

/-- C7, amended: when a launched request completes with a rejection,
`loadMissingAssets` rejects with the error of a launched request.  A file or
asset whose own request rejects is, at the moment of the rejection and after
all completions, exactly as it was before the call, and so is every resource
that was already loaded.  A resource that was not loaded and whose own request
completes successfully is marked loaded with its content once all completions
have run. -/
theorem C7_rejection_keeps_completed (net : Packer.Net) (order : List Packer.Req)
    (s : Packer.FileLoader) (q : Packer.Req) (e₀ : Err)
    (hq : q ∈ Packer.FileLoader.launched s) (hqo : q ∈ order)
    (hfail : Packer.FileLoader.outcome net q = .error e₀) :
    (∃ e, (Packer.FileLoader.loadMissingAssets net order s).out = .rejected e ∧
      ∃ q' ∈ Packer.FileLoader.launched s, Packer.FileLoader.outcome net q' = .error e) ∧
    (∀ (i : Nat) (f : Packer.PackagerFile) (e : Err), s.files[i]? = some f → net.text i = .error e →
      (Packer.FileLoader.loadMissingAssets net order s).atSettle.files[i]? = some f ∧
      (Packer.FileLoader.loadMissingAssets net order s).atEnd.files[i]? = some f) ∧
    (∀ (i : Nat) (a : Packer.PackagerAsset) (e : Err), s.assets[i]? = some a → net.url i = .error e →
      (Packer.FileLoader.loadMissingAssets net order s).atSettle.assets[i]? = some a ∧
      (Packer.FileLoader.loadMissingAssets net order s).atEnd.assets[i]? = some a) ∧
    (∀ (i : Nat) (f : Packer.PackagerFile), s.files[i]? = some f → f.loaded = true →
      (Packer.FileLoader.loadMissingAssets net order s).atSettle.files[i]? = some f ∧
      (Packer.FileLoader.loadMissingAssets net order s).atEnd.files[i]? = some f) ∧
    (∀ (i : Nat) (a : Packer.PackagerAsset), s.assets[i]? = some a → a.loaded = true →
      (Packer.FileLoader.loadMissingAssets net order s).atSettle.assets[i]? = some a ∧
      (Packer.FileLoader.loadMissingAssets net order s).atEnd.assets[i]? = some a) ∧
    (∀ (i : Nat) (f : Packer.PackagerFile) (t : String), s.files[i]? = some f → f.loaded = false → net.text i = .ok t →
      Packer.Req.file i ∈ order →
      (Packer.FileLoader.loadMissingAssets net order s).atEnd.files[i]? =
        some { f with loaded := true, content := some ("/* F: " ++ f.src ++ " */" ++ t) }) ∧
    (∀ (i : Nat) (a : Packer.PackagerAsset) (u : String), s.assets[i]? = some a → a.loaded = false → net.url i = .ok u →
      Packer.Req.asset i ∈ order →
      (Packer.FileLoader.loadMissingAssets net order s).atEnd.assets[i]? =
        some { a with loaded := true, data := some u }) := by
  obtain ⟨d, hd, hsettle⟩ := Packer.FileLoader.atSettle_eq net order s
  have hend := Packer.FileLoader.atEnd_eq net order s
  refine ⟨Packer.FileLoader.rejected_of_failure net order s q e₀ hq hqo hfail,
    ?_, ?_, ?_, ?_, ?_, ?_⟩
  · intro i f e hf he
    rw [hsettle, hend, Packer.FileLoader.settleAll_files, Packer.FileLoader.settleAll_files, hf]
    simp [Packer.FileLoader.loadedFile, he]
  · intro i a e hf he
    rw [hsettle, hend, Packer.FileLoader.settleAll_assets, Packer.FileLoader.settleAll_assets, hf]
    simp [Packer.FileLoader.loadedAsset, he]
  · intro i f hf hl
    have hnl : Packer.Req.file i ∉ Packer.FileLoader.launched s := by
      rw [Packer.FileLoader.file_mem_launched]
      rintro ⟨f', hf', hl'⟩
      rw [hf] at hf'
      cases hf'
      rw [hl] at hl'
      cases hl'
    have hnc : Packer.Req.file i ∉ completions (Packer.FileLoader.launched s) order :=
      fun hm => hnl ((mem_completions _ _ _).mp hm).2
    have hnd : Packer.Req.file i ∉ d := fun hm => hnc (hd _ hm)
    rw [hsettle, hend, Packer.FileLoader.settleAll_files, Packer.FileLoader.settleAll_files, hf]
    simp [hnc, hnd]
  · intro i a hf hl
    have hnl : Packer.Req.asset i ∉ Packer.FileLoader.launched s := by
      rw [Packer.FileLoader.asset_mem_launched]
      rintro ⟨f', hf', hl'⟩
      rw [hf] at hf'
      cases hf'
      rw [hl] at hl'
      cases hl'
    have hnc : Packer.Req.asset i ∉ completions (Packer.FileLoader.launched s) order :=
      fun hm => hnl ((mem_completions _ _ _).mp hm).2
    have hnd : Packer.Req.asset i ∉ d := fun hm => hnc (hd _ hm)
    rw [hsettle, hend, Packer.FileLoader.settleAll_assets, Packer.FileLoader.settleAll_assets, hf]
    simp [hnc, hnd]
  · intro i f t hf hl ht ho
    have hc : Packer.Req.file i ∈ completions (Packer.FileLoader.launched s) order :=
      (mem_completions _ _ _).mpr ⟨ho, (Packer.FileLoader.file_mem_launched s i).mpr ⟨f, hf, hl⟩⟩
    rw [hend, Packer.FileLoader.settleAll_files, hf]
    simp [hc, Packer.FileLoader.loadedFile, ht]
  · intro i a u hf hl ht ho
    have hc : Packer.Req.asset i ∈ completions (Packer.FileLoader.launched s) order :=
      (mem_completions _ _ _).mpr ⟨ho, (Packer.FileLoader.asset_mem_launched s i).mpr ⟨a, hf, hl⟩⟩
    rw [hend, Packer.FileLoader.settleAll_assets, hf]
    simp [hc, Packer.FileLoader.loadedAsset, ht]

/-- C7, amended, on the sample manifest with a failing stylesheet request: the
call rejects, the stylesheet stays unmarked, the first script ends up loaded. -/
theorem C7_rejection_keeps_completed_witness :
    (∃ e, (Packer.FileLoader.loadMissingAssets failingNet
        [.file 0, .file 1, .file 2, .asset 0] sampleLoader).out = .rejected e ∧
      ∃ q' ∈ Packer.FileLoader.launched sampleLoader,
        Packer.FileLoader.outcome failingNet q' = .error e) ∧
    (Packer.FileLoader.loadMissingAssets failingNet
        [.file 0, .file 1, .file 2, .asset 0] sampleLoader).atEnd.files[1]? =
      some { type := "style", src := "phosphorus.css", loaded := false, content := none } ∧
    (Packer.FileLoader.loadMissingAssets failingNet
        [.file 0, .file 1, .file 2, .asset 0] sampleLoader).atEnd.files[0]? =
      some { type := "script", src := "lib/jszip.min.js", loaded := true,
             content := some "/* F: lib/jszip.min.js */source 0" } :=
  have h := C7_rejection_keeps_completed failingNet [.file 0, .file 1, .file 2, .asset 0]
    sampleLoader (.file 1) (.external "NetworkError") (by decide) (by decide) rfl
  ⟨h.1,
    (h.2.1 1 { type := "style", src := "phosphorus.css", loaded := false, content := none }
      (.external "NetworkError") (by decide) rfl).2,
    h.2.2.2.2.2.1 0
      { type := "script", src := "lib/jszip.min.js", loaded := false, content := none }
      "source 0" (by decide) rfl rfl (by decide)⟩

/-! ### Inlining -/

/-- C8, the code at a text in which the listed path occurs twice: `inlineURLs`
resolves with a text whose first occurrence is replaced by the data URL and
whose second occurrence is still there. -/
theorem C8_inlineURLs_first_occurrence_only :
    PackagerScript.inlineURLs (fun _ => .ok "data:font/ttf;base64,AAEC") [0]
        "src: url(fonts/Scratch.ttf); alt: url(fonts/Scratch.ttf)"
        ["fonts/Scratch.ttf"] =
      .resolved "src: url(data:font/ttf;base64,AAEC); alt: url(fonts/Scratch.ttf)" ∧
    (findFirst "fonts/Scratch.ttf".toList
        "src: url(data:font/ttf;base64,AAEC); alt: url(fonts/Scratch.ttf)".toList).isSome
      = true := by
  decide

namespace Packer.FileLoader

theorem settled_files_eq (net : Net) (s : FileLoader) :
    (settleAll net s (launched s)).files =
      s.files.enum.map
        (fun p => if Req.file p.1 ∈ launched s then loadedFile net p.1 p.2 else p.2) := by
  apply List.ext_getElem?
  intro j
  rw [settleAll_files, List.getElem?_map, List.getElem?_enum]
  cases s.files[j]? <;> simp

theorem loadedFile_type (net : Net) (i : Nat) (f : PackagerFile) :
    (loadedFile net i f).type = f.type := by
  unfold loadedFile
  split <;> rfl

/-- The text the `return` statement builds for one type of file, when every
launched request has succeeded. -/
theorem concat_of_type (net : Net) (s : FileLoader) (txt : Nat → String) (k : String)
    (htxt : ∀ (i : Nat) (f : PackagerFile), s.files[i]? = some f →
      if f.loaded = true then f.content = some ("/* F: " ++ f.src ++ " */" ++ txt i)
      else net.text i = .ok (txt i)) :
    _concatenateFiles ((settleAll net s (launched s)).files.filter (fun i => i.type = k)) =
      "\n".intercalate
        ((s.files.enum.filter (fun p => p.2.type = k)).map
          (fun p => "/* F: " ++ p.2.src ++ " */" ++ txt p.1)) := by
  rw [settled_files_eq, List.filter_map]
  unfold _concatenateFiles
  rw [List.map_map]
  congr 1
  have hfilter : s.files.enum.filter
      ((fun i : PackagerFile => decide (i.type = k)) ∘
        (fun p : Nat × PackagerFile =>
          if Req.file p.1 ∈ launched s then loadedFile net p.1 p.2 else p.2)) =
      s.files.enum.filter (fun p => decide (p.2.type = k)) := by
    apply List.filter_congr
    intro p _
    simp only [Function.comp]
    split
    · rw [loadedFile_type]
    · rfl
  rw [hfilter]
  apply List.map_congr_left
  intro p hp
  have hmem := (List.mem_filter.mp hp).1
  have hget : s.files[p.1]? = some p.2 := List.mem_enum_iff_getElem?.mp hmem
  have h := htxt p.1 p.2 hget
  simp only [Function.comp]
  by_cases hl : p.2.loaded = true
  · rw [if_pos hl] at h
    have hnl : Req.file p.1 ∉ launched s := by
      rw [file_mem_launched]
      rintro ⟨f', hf', hl'⟩
      rw [hget] at hf'
      cases hf'
      rw [hl] at hl'
      cases hl'
    rw [if_neg hnl, h]
    rfl
  · rw [if_neg hl] at h
    have hin : Req.file p.1 ∈ launched s :=
      (file_mem_launched s p.1).mpr ⟨p.2, hget, by simpa using hl⟩
    rw [if_pos hin]
    simp [loadedFile, h]

end Packer.FileLoader

/-- C9: when `loadMissingAssets` resolves, and `txt i` is the text fetched for
the file at position `i` (in this call if the file was missing, in the earlier
call that loaded it otherwise), the `scripts` text it returns is the
newline-joined list, in manifest order, of `/* F: src */` followed by `txt i`
over exactly the files of type `script`, and likewise `styles` over the files
of type `style`; every completion order under which the call resolves gives
the same result. -/
theorem C9_concatenation (net : Packer.Net) (order : List Packer.Req) (s : Packer.FileLoader)
    (r : Packer.FileLoader.LoadResult) (txt : Nat → String)
    (hres : (Packer.FileLoader.loadMissingAssets net order s).out = .resolved r)
    (htxt : ∀ (i : Nat) (f : Packer.PackagerFile), s.files[i]? = some f →
      if f.loaded = true then f.content = some ("/* F: " ++ f.src ++ " */" ++ txt i)
      else net.text i = .ok (txt i)) :
    r.scripts =
        "\n".intercalate
          ((s.files.enum.filter (fun p => p.2.type = "script")).map
            (fun p => "/* F: " ++ p.2.src ++ " */" ++ txt p.1)) ∧
      r.styles =
        "\n".intercalate
          ((s.files.enum.filter (fun p => p.2.type = "style")).map
            (fun p => "/* F: " ++ p.2.src ++ " */" ++ txt p.1)) ∧
      (∀ (order' : List Packer.Req) (r' : Packer.FileLoader.LoadResult),
        (Packer.FileLoader.loadMissingAssets net order' s).out = .resolved r' → r' = r) ∧
      (∀ (i : Nat) (f : Packer.PackagerFile),
        (Packer.FileLoader.loadMissingAssets net order s).atSettle.files[i]? = some f →
          f.loaded = true ∧ f.content = some ("/* F: " ++ f.src ++ " */" ++ txt i)) := by
  obtain ⟨hr, hsettle, _, _⟩ := Packer.FileLoader.resolved_inv net order s r hres
  refine ⟨?_, ?_, ?_, ?_⟩
  · rw [hr]
    exact Packer.FileLoader.concat_of_type net s txt "script" htxt
  · rw [hr]
    exact Packer.FileLoader.concat_of_type net s txt "style" htxt
  · intro order' r' hres'
    obtain ⟨hr', _, _, _⟩ := Packer.FileLoader.resolved_inv net order' s r' hres'
    rw [hr, hr']
  · intro i f' hf'
    rw [hsettle, Packer.FileLoader.settleAll_files] at hf'
    cases hs : s.files[i]? with
    | none => rw [hs] at hf'; cases hf'
    | some f =>
      rw [hs] at hf'
      simp only [Option.map_some', Option.some.injEq] at hf'
      have h := htxt i f hs
      by_cases hl : f.loaded = true
      · rw [if_pos hl] at h
        have hnl : Packer.Req.file i ∉ Packer.FileLoader.launched s := by
          rw [Packer.FileLoader.file_mem_launched]
          rintro ⟨g, hg, hl'⟩
          rw [hs] at hg
          cases hg
          rw [hl] at hl'
          cases hl'
        rw [if_neg hnl] at hf'
        subst hf'
        exact ⟨hl, h⟩
      · rw [if_neg hl] at h
        have hin : Packer.Req.file i ∈ Packer.FileLoader.launched s :=
          (Packer.FileLoader.file_mem_launched s i).mpr ⟨f, hs, by simpa using hl⟩
        rw [if_pos hin] at hf'
        subst hf'
        simp [Packer.FileLoader.loadedFile, h]

/-- C9 on the sample manifest, for two different completion orders. -/
theorem C9_concatenation_witness :
    (Packer.FileLoader.loadMissingAssets sampleNet
        [.asset 0, .file 2, .file 0, .file 1] sampleLoader).out =
      .resolved
        { scripts := "/* F: lib/jszip.min.js */source 0\n/* F: phosphorus.dist.js */source 2"
          styles := "/* F: phosphorus.css */source 1"
          assets := [{ src := "fonts/Scratch.ttf", loaded := true,
                       data := some "data:font/ttf;base64,0" }] } ∧
    "/* F: lib/jszip.min.js */source 0\n/* F: phosphorus.dist.js */source 2" =
      "\n".intercalate
        ((sampleLoader.files.enum.filter (fun p => p.2.type = "script")).map
          (fun p => "/* F: " ++ p.2.src ++ " */" ++ ("source " ++ toString p.1))) :=
  ⟨by decide,
    (C9_concatenation sampleNet [.asset 0, .file 2, .file 0, .file 1] sampleLoader
      { scripts := "/* F: lib/jszip.min.js */source 0\n/* F: phosphorus.dist.js */source 2"
        styles := "/* F: phosphorus.css */source 1"
        assets := [{ src := "fonts/Scratch.ttf", loaded := true,
                     data := some "data:font/ttf;base64,0" }] }
      (fun i => "source " ++ toString i) (by decide)
      (by
        intro i f hf
        have hmem := List.getElem?_mem hf
        simp only [sampleLoader, List.mem_cons, List.mem_singleton, List.not_mem_nil,
          or_false] at hmem
        rcases hmem with h | h | h <;> subst h <;> simp [sampleNet])).1⟩


/-- C10: when every file and every asset of the manifest is already loaded (in
particular when the manifest is empty), `loadMissingAssets` resolves with the
value built from the loader as it stands, makes no call (neither
`progress.start()` nor any fetch), and leaves every resource unchanged. -/
theorem C10_nothing_missing (net : Packer.Net) (order : List Packer.Req) (s : Packer.FileLoader)
    (hf : ∀ f ∈ s.files, f.loaded = true) (ha : ∀ a ∈ s.assets, a.loaded = true) :
    (Packer.FileLoader.loadMissingAssets net order s).out =
        .resolved (Packer.FileLoader.result s) ∧
      (Packer.FileLoader.loadMissingAssets net order s).log = [] ∧
      Packer.Call.progressStart ∉ (Packer.FileLoader.loadMissingAssets net order s).log ∧
      (∀ u, Packer.Call.fetch u ∉ (Packer.FileLoader.loadMissingAssets net order s).log) ∧
      (Packer.FileLoader.loadMissingAssets net order s).atSettle = s ∧
      (Packer.FileLoader.loadMissingAssets net order s).atEnd = s := by
  have hmf : Packer.FileLoader.missingFiles s = [] := by
    rw [List.eq_nil_iff_forall_not_mem]
    intro i hi
    obtain ⟨f, hfi, hl⟩ := (Packer.FileLoader.mem_missingFiles s i).mp hi
    have := hf f (List.getElem?_mem hfi)
    rw [hl] at this
    cases this
  have hma : Packer.FileLoader.missingAssets s = [] := by
    rw [List.eq_nil_iff_forall_not_mem]
    intro i hi
    obtain ⟨a, hai, hl⟩ := (Packer.FileLoader.mem_missingAssets s i).mp hi
    have := ha a (List.getElem?_mem hai)
    rw [hl] at this
    cases this
  rw [Packer.FileLoader.run_of_none_missing net order s hmf hma]
  simp

/-- C10 on a manifest whose entries are all loaded, and on the empty manifest. -/
theorem C10_nothing_missing_witness :
    ((Packer.FileLoader.loadMissingAssets failingNet [.file 0] cachedLoader).out =
        .resolved (Packer.FileLoader.result cachedLoader) ∧
      (Packer.FileLoader.loadMissingAssets failingNet [.file 0] cachedLoader).log = []) ∧
    ((Packer.FileLoader.loadMissingAssets failingNet [] { files := [], assets := [] }).out =
        .resolved { scripts := "", styles := "", assets := [] } ∧
      (Packer.FileLoader.loadMissingAssets failingNet [] { files := [], assets := [] }).log = []) :=
  have h₁ := C10_nothing_missing failingNet [.file 0] cachedLoader (by decide) (by decide)
  have h₂ := C10_nothing_missing failingNet [] { files := [], assets := [] }
    (by decide) (by decide)
  ⟨⟨h₁.1, h₁.2.1⟩, ⟨h₂.1, h₂.2.1⟩⟩


/-! ### Progress bars -/

namespace PackagerScript

theorem updateProgress_total (b : ProgressBar) : (updateProgress b).total = b.total := by
  unfold updateProgress
  split <;> rfl

theorem updateProgress_finished (b : ProgressBar) : (updateProgress b).finished = b.finished := by
  unfold updateProgress
  split <;> rfl

theorem updateProgress_zero (b : ProgressBar) (h : (updateProgress b).total = .fin 0) :
    (updateProgress b).value = .fin 0 := by
  rw [updateProgress_total] at h
  simp [updateProgress, h]

theorem step_zero (b : ProgressBar) (op : BarOp) (h : (b.step op).total = .fin 0) :
    (b.step op).value = .fin 0 := by
  cases op <;> exact updateProgress_zero _ h

theorem finish_eq (b : ProgressBar) :
    b.finish = { finished := .fin 1, total := .fin 1, value := .fin 1 } := by
  simp [ProgressBar.finish, updateProgress, jsQuot]

theorem percent_eq (b : ProgressBar) (q : ℚ) :
    b.percent (.fin q) = { finished := .fin q, total := .fin 1, value := .fin q } := by
  simp [ProgressBar.percent, updateProgress, jsQuot]

end PackagerScript

/-- C11: a bar made by `createProgressBar` starts with `total = 0` and a
displayed ratio of 0; after any sequence of mutations (the two setters with any
number, `finish()`, `percent(p)`), a bar whose `total` is 0 displays 0; and
`finish()` leaves `total = finished = 1` with a displayed ratio of exactly 1,
from any prior state. -/
theorem C11_progress_ratio (text : String) :
    (PackagerScript.createProgressBar text).total = .fin 0 ∧
    (PackagerScript.createProgressBar text).value = .fin 0 ∧
    (∀ ops : List PackagerScript.BarOp,
      (ops.foldl PackagerScript.ProgressBar.step (PackagerScript.createProgressBar text)).total =
          .fin 0 →
        (ops.foldl PackagerScript.ProgressBar.step (PackagerScript.createProgressBar text)).value =
          .fin 0) ∧
    (∀ b : PackagerScript.ProgressBar,
      b.finish.total = .fin 1 ∧ b.finish.finished = .fin 1 ∧ b.finish.value = .fin 1) := by
  refine ⟨rfl, rfl, ?_, ?_⟩
  · intro ops h
    rcases List.eq_nil_or_concat ops with hnil | ⟨init, op, hcat⟩
    · subst hnil
      rfl
    · subst hcat
      rw [List.concat_eq_append, List.foldl_append] at h ⊢
      exact PackagerScript.step_zero _ op h
  · intro b
    rw [PackagerScript.finish_eq]
    exact ⟨rfl, rfl, rfl⟩

/-- C11 on a bar that first shows a half, then has its total set back to 0. -/
theorem C11_progress_ratio_witness :
    ([PackagerScript.BarOp.percent (.fin (1 / 2)), .setTotal (.fin 0)].foldl
        PackagerScript.ProgressBar.step (PackagerScript.createProgressBar "Loading")).total =
      .fin 0 ∧
    ([PackagerScript.BarOp.percent (.fin (1 / 2)), .setTotal (.fin 0)].foldl
        PackagerScript.ProgressBar.step (PackagerScript.createProgressBar "Loading")).value =
      .fin 0 :=
  have h : ([PackagerScript.BarOp.percent (.fin (1 / 2)), .setTotal (.fin 0)].foldl
      PackagerScript.ProgressBar.step (PackagerScript.createProgressBar "Loading")).total =
      .fin 0 := by
    simp [PackagerScript.ProgressBar.step, PackagerScript.ProgressBar.setTotal,
      PackagerScript.updateProgress_total]
  ⟨h, (C11_progress_ratio "Loading").2.2.1 _ h⟩

namespace PackagerScript

/-- A progress event that has read no more than the whole gives the callback a
fraction between 0 and 1. -/
theorem onprogress_fraction (e : ProgressEvent) (h : e.loaded ≤ e.total) :
    ∀ v ∈ onprogress e, ∃ q : ℚ, v = .fin q ∧ 0 ≤ q ∧ q ≤ 1 := by
  intro v hv
  unfold onprogress at hv
  split at hv
  · simp at hv
  · by_cases ht : e.total = 0
    · have hl : e.loaded = 0 := by omega
      simp [jsDiv, ht, hl] at hv
      exact ⟨0, hv, le_refl 0, by norm_num⟩
    · simp [jsDiv, ht] at hv
      refine ⟨(e.loaded : ℚ) / (e.total : ℚ), hv, by positivity, ?_⟩
      have hpos : (0 : ℚ) < (e.total : ℚ) := by
        have : 0 < e.total := Nat.pos_of_ne_zero ht
        exact_mod_cast this
      rw [div_le_one hpos]
      exact_mod_cast h

/-- With a fraction between 0 and 1, `percent` keeps `finished` within `total`. -/
theorem percent_fraction (b : ProgressBar) (q : ℚ) (h : q ≤ 1) :
    ∃ f t : ℚ, (b.percent (.fin q)).finished = .fin f ∧ (b.percent (.fin q)).total = .fin t ∧
      f ≤ t := by
  rw [percent_eq]
  exact ⟨q, 1, rfl, rfl, h⟩

end PackagerScript

/-- C12, the code on an archive for which the zip library reports 50 percent:
after the calls of `createArchive`, the current bar (`Creating archive`) has
`finished = 50` and `total = 1`, so `finished` exceeds `total`, and the ratio
assigned to the display is 50. -/
theorem C12_archive_percent_exceeds_total :
    PackagerScript.currentProgressBar
        (PackagerScript.createArchive halfwayEnv (sampleResult "zip").files).log =
      some { finished := .fin 50, total := .fin 1, value := .fin 50 } ∧
    ¬ ((50 : ℚ) ≤ 1) := by
  constructor
  · simp [PackagerScript.currentProgressBar, PackagerScript.createArchive, halfwayEnv,
      sampleResult, Run.bind_def, Run.bind, Run.emit, Run.emitAll, Run.eval,
      PackagerScript.stepCurrent, PackagerScript.percent_eq]
  · norm_num

/-! ### The generated page -/

/-- C13: `getProjectHTML` is a function of the project result, the cached css
and js, and the options, and nothing else.  For fixed result, cache, loading
text and post-load script there are a text before and a text after, the same
for every `customStyle`, such that the page is the text before, then
`customStyle`, then the text after; the text after holds the cached js and the
`type` and `project` literals, which are therefore the same in two pages that
differ only in `customStyle`. -/
theorem C13_custom_style_frame (result : ProjectResult) (fileCache : PackagerScript.FileCache)
    (loadingText postLoadScript : String) :
    ∃ pre suf : String,
      (∀ customStyle : String,
        PackagerScript.getProjectHTML result fileCache
            { loadingText := loadingText, postLoadScript := postLoadScript,
              customStyle := customStyle } =
          pre ++ customStyle ++ suf) ∧
      (∃ a b c : String,
        suf = a ++ fileCache.js ++ b ++
          ("      var type = \x27" ++ result.type ++ "\x27;\n" ++
            "      var project = \x27" ++ result.url ++ "\x27;\n") ++ c) := by
  refine ⟨PackagerScript.htmlPart0 ++ "      " ++ fileCache.css ++ "\n" ++
      PackagerScript.htmlPart1 ++ "      ",
    "\n" ++ PackagerScript.htmlPart2 ++ "        " ++
      (if loadingText ≠ "" then "<h1>" ++ loadingText ++ "</h1>" else "") ++ "\n" ++
      PackagerScript.htmlPart3 ++ "      " ++ fileCache.js ++ "\n" ++ PackagerScript.htmlPart4 ++
      "      var type = \x27" ++ result.type ++ "\x27;\n" ++ "      var project = \x27" ++
      result.url ++ "\x27;\n" ++ PackagerScript.htmlPart5 ++ "          " ++ postLoadScript ++
      "\n" ++ PackagerScript.htmlPart6 ++ "  </html>", ?_, ?_⟩
  · intro customStyle
    simp only [PackagerScript.getProjectHTML, String.append_assoc]
  · refine ⟨"\n" ++ PackagerScript.htmlPart2 ++ "        " ++
        (if loadingText ≠ "" then "<h1>" ++ loadingText ++ "</h1>" else "") ++ "\n" ++
        PackagerScript.htmlPart3 ++ "      ",
      "\n" ++ PackagerScript.htmlPart4,
      PackagerScript.htmlPart5 ++ "          " ++ postLoadScript ++ "\n" ++
        PackagerScript.htmlPart6 ++ "  </html>", ?_⟩
    simp only [String.append_assoc]

/-- C14: when the reader ends with `onload`, `readBlob` with a progress callback
resolves with the data URL after having invoked the callback once for every
length-computable progress event and then once more with exactly 1, whatever
the progress events were (none at all included); when the reader ends with
`onerror`, it rejects with `Error reading file`. -/
theorem C14_readBlob_terminal_progress (env : PackagerScript.Env) (blob : Blob)
    (callback : JsNum → List PackagerScript.Call) :
    (∀ url : String, (env.read blob).result = some url →
      (PackagerScript.readBlob env blob (some callback)).out = .ok url ∧
      (PackagerScript.readBlob env blob (some callback)).log =
        PackagerScript.Call.readBlob blob ::
          (((env.read blob).events.flatMap PackagerScript.onprogress) ++
            [JsNum.fin 1]).flatMap callback ∧
      (PackagerScript.readBlob env blob
          (some (fun progress => [PackagerScript.Call.percent progress]))).log.getLast? =
        some (PackagerScript.Call.percent (.fin 1))) ∧
    ((env.read blob).result = none →
      (PackagerScript.readBlob env blob (some callback)).out =
        .error (.reason "Error reading file")) := by
  constructor
  · intro url hurl
    refine ⟨?_, ?_, ?_⟩
    · simp [PackagerScript.readBlob, Run.bind_def, Run.pure_def, Run.bind, Run.emit,
        Run.emitAll, Run.pure, hurl]
    · simp [PackagerScript.readBlob, Run.bind_def, Run.pure_def, Run.bind, Run.emit,
        Run.emitAll, Run.pure, hurl]
    · simp only [PackagerScript.readBlob, Run.bind_def, Run.pure_def, Run.bind, Run.emit,
        Run.emitAll, Run.pure, hurl, List.append_nil, List.singleton_append]
      rw [← List.cons_append, List.getLast?_append]
      simp
  · intro herr
    simp [PackagerScript.readBlob, Run.bind_def, Run.pure_def, Run.bind, Run.emit,
      Run.emitAll, Run.fail, herr]

/-- C14 on a blob read after one progress event, and on an unreadable blob. -/
theorem C14_readBlob_terminal_progress_witness :
    ((PackagerScript.readBlob halfwayEnv ⟨[80, 75]⟩
          (some (fun progress => [PackagerScript.Call.percent progress]))).out =
        .ok "data:application/zip;base64,UEsFBg==" ∧
      (PackagerScript.readBlob halfwayEnv ⟨[80, 75]⟩
          (some (fun progress => [PackagerScript.Call.percent progress]))).log.getLast? =
        some (PackagerScript.Call.percent (.fin 1))) ∧
    (PackagerScript.readBlob unreadableEnv ⟨[80, 75]⟩
        (some (fun progress => [PackagerScript.Call.percent progress]))).out =
      .error (.reason "Error reading file") :=
  ⟨⟨((C14_readBlob_terminal_progress halfwayEnv ⟨[80, 75]⟩
        (fun progress => [PackagerScript.Call.percent progress])).1
        "data:application/zip;base64,UEsFBg==" rfl).1,
      ((C14_readBlob_terminal_progress halfwayEnv ⟨[80, 75]⟩
        (fun progress => [PackagerScript.Call.percent progress])).1
        "data:application/zip;base64,UEsFBg==" rfl).2.2⟩,
    (C14_readBlob_terminal_progress unreadableEnv ⟨[80, 75]⟩
      (fun progress => [PackagerScript.Call.percent progress])).2 rfl⟩

/-- A call that rejects does so with the error of one of its launched requests. -/
theorem rejected_inv (net : Packer.Net) (order : List Packer.Req) (s : Packer.FileLoader)
    (e : Err) (h : (Packer.FileLoader.loadMissingAssets net order s).out = .rejected e) :
    ∃ q ∈ Packer.FileLoader.launched s, Packer.FileLoader.outcome net q = .error e := by
  unfold Packer.FileLoader.loadMissingAssets at h
  by_cases hc : (Packer.FileLoader.missingFiles s).length > 0 ∨
      (Packer.FileLoader.missingAssets s).length > 0
  · rw [if_pos hc] at h
    dsimp only at h
    cases hff : firstFailure (Packer.FileLoader.outcome net)
        (completions (Packer.FileLoader.launched s) order) with
    | none =>
      rw [hff] at h
      dsimp only at h
      split at h <;> cases h
    | some pr =>
      obtain ⟨before, e'⟩ := pr
      rw [hff] at h
      simp only [Settled.rejected.injEq] at h
      subst h
      obtain ⟨r, rest, hl, hr, _⟩ := firstFailure_eq_some _ _ _ _ hff
      have hmem : r ∈ completions (Packer.FileLoader.launched s) order := by
        rw [hl]
        simp
      exact ⟨r, ((mem_completions _ _ _).mp hmem).2, hr⟩
  · rw [if_neg hc] at h
    cases h

theorem isFalsy_iff (x : Option String) : Packer.isFalsy x = true ↔ x = none ∨ x = some "" := by
  cases x with
  | none => simp [Packer.isFalsy]
  | some v => simp [Packer.isFalsy]

/-- C15: `run()` stops at its guard, rejecting with `missing project data or
type` without calling `fileLoader.loadMissingAssets`, exactly when
`projectData` or `projectType` is `null` or empty; on a network that does not
itself fail with that very error, `run()` rejects with it exactly in that
case.  Otherwise it calls
`loadMissingAssets`; when that call rejects, `run()` rejects with the same
error, and when it resolves, `run()` resolves with a document that holds
`projectType` and `projectData` unchanged between the quotes of its
`var type = '...';` and `var project = '...';` lines. -/
theorem C15_run_guard (net : Packer.Net) (order : List Packer.Req)
    (fileLoader : Packer.FileLoader) (playerOptions controlsOptions : String)
    (p : Packer.Packager) :
    (((Packer.Packager.run net order fileLoader playerOptions controlsOptions p).out =
          .rejected (.error "missing project data or type") ∧
        (Packer.Packager.run net order fileLoader playerOptions controlsOptions p).loading.isNone
          = true) ↔
      ((p.projectData = none ∨ p.projectData = some "") ∨
        (p.projectType = none ∨ p.projectType = some ""))) ∧
    ((∀ q ∈ Packer.FileLoader.launched fileLoader,
        Packer.FileLoader.outcome net q ≠ .error (.error "missing project data or type")) →
      ((Packer.Packager.run net order fileLoader playerOptions controlsOptions p).out =
          .rejected (.error "missing project data or type") ↔
        ((p.projectData = none ∨ p.projectData = some "") ∨
          (p.projectType = none ∨ p.projectType = some "")))) ∧
    (∀ type data : String, p.projectType = some type → p.projectData = some data →
      type ≠ "" → data ≠ "" →
      (Packer.Packager.run net order fileLoader playerOptions controlsOptions p).loading.isSome
          = true ∧
        (∀ e, (Packer.FileLoader.loadMissingAssets net order fileLoader).out = .rejected e →
          (Packer.Packager.run net order fileLoader playerOptions controlsOptions p).out =
            .rejected e) ∧
        (∀ r, (Packer.FileLoader.loadMissingAssets net order fileLoader).out = .resolved r →
          ∃ a b c : String,
            (Packer.Packager.run net order fileLoader playerOptions controlsOptions p).out =
              .resolved (a ++ ("  var type = \x27" ++ type ++ "\x27;\n") ++ b ++
                ("  var project = \x27" ++ data ++ "\x27;\n") ++ c))) := by
  refine ⟨?_, ?_, ?_⟩
  · rw [← isFalsy_iff, ← isFalsy_iff]
    by_cases hg : Packer.isFalsy p.projectData = true ∨ Packer.isFalsy p.projectType = true
    · simp [Packer.Packager.run, hg]
    · simp only [Packer.Packager.run, if_neg hg]
      constructor
      · rintro ⟨_, hnone⟩
        revert hnone
        split <;> simp
      · intro h
        exact absurd h hg
  · intro hnet
    rw [← isFalsy_iff, ← isFalsy_iff]
    by_cases hg : Packer.isFalsy p.projectData = true ∨ Packer.isFalsy p.projectType = true
    · simp [Packer.Packager.run, hg]
    · simp only [Packer.Packager.run, if_neg hg]
      constructor
      · intro hout
        exfalso
        cases hl : (Packer.FileLoader.loadMissingAssets net order fileLoader).out with
        | resolved r => rw [hl] at hout; cases hout
        | pending => rw [hl] at hout; cases hout
        | rejected e =>
          rw [hl] at hout
          simp only [Settled.rejected.injEq] at hout
          subst hout
          obtain ⟨q, hq, hqe⟩ := rejected_inv net order fileLoader _ hl
          exact hnet q hq hqe
      · intro h
        exact absurd h hg
  · intro type data htype hdata hnt hnd
    have hg : ¬ (Packer.isFalsy p.projectData = true ∨ Packer.isFalsy p.projectType = true) := by
      simp [htype, hdata, Packer.isFalsy, hnt, hnd]
    simp only [Packer.Packager.run, if_neg hg]
    refine ⟨?_, ?_, ?_⟩
    · split <;> rfl
    · intro e he
      simp [he]
    · intro r hr
      refine ⟨Packer.bodyPart0 ++ r.styles ++ "\n" ++ Packer.bodyPart1 ++ r.scripts ++ "\n" ++
          Packer.bodyPart2 ++ "      this.data = " ++ Packer.assetManagerData r.assets ++
          ";\n" ++ Packer.bodyPart3,
        Packer.bodyPart4,
        Packer.bodyPart5 ++ "  var playerOptions = " ++ playerOptions ++ ";\n" ++
          Packer.bodyPart6 ++ "  var controlsOptions = " ++ controlsOptions ++ ";\n" ++
          Packer.bodyPart7 ++ "</html>", ?_⟩
      simp [hr, htype, hdata, Packer.body, String.append_assoc]

/-- C15 on a packager that has nothing loaded and on one that has a project. -/
theorem C15_run_guard_witness :
    ((Packer.Packager.run sampleNet [] cachedLoader "null" "null"
          { projectType := none, projectData := none }).out =
        .rejected (.error "missing project data or type") ∧
      (Packer.Packager.run sampleNet [] cachedLoader "null" "null"
          { projectType := none, projectData := none }).loading.isNone = true) ∧
    (Packer.Packager.run sampleNet [] cachedLoader "null" "null" loadedPackager).out ≠
      .rejected (.error "missing project data or type") ∧
    (Packer.Packager.run sampleNet [] cachedLoader "null" "null" loadedPackager).loading.isSome
      = true :=
  ⟨(C15_run_guard sampleNet [] cachedLoader "null" "null"
      { projectType := none, projectData := none }).1.mpr (Or.inl (Or.inl rfl)),
    mt ((C15_run_guard sampleNet [] cachedLoader "null" "null" loadedPackager).2.1
      (fun q hq => absurd hq (List.not_mem_nil q))).mp (by decide),
    ((C15_run_guard sampleNet [] cachedLoader "null" "null" loadedPackager).2.2
      "sb3" "data:application/zip;base64,UEsFBg==" rfl rfl (by decide) (by decide)).1⟩

end Forkphorus
